import Mathlib

/-!
Verification development for the MDTO object/XML mapping engine
(`mdto/mdto.py`): typed records for the MDTO metadata schema, their
serialization `to_xml`, the generic deserializer `elem_to_mdto` used by
`from_file`, and the round-trip serialization chain exercised by
`test_mdto_voorbeelden.py`.

Modelling conventions:
- lxml elements are modelled by `Elem` (tag with the MDTO namespace prefix
  already stripped, optional text content, attributes in their serialized
  spelling, children).  `ET.parse`/`ET.tostring` themselves belong to the
  external XML library; documents are therefore handled at tree level, and
  the byte form is produced by `renderDoc`, which models the canonical
  rendering used by the test suite (tab indentation, XML declaration,
  trailing newline).
- Python values that may be `None` are `Option`s; fields that may hold
  either one value or a list (`X | List[X]` annotations) are `OneOrList`.
- Python exceptions and `sys.exit` are the error cases of `Except PyErr`.
- Python truthiness (`if self.field:`) is modelled by the `pyTruthy*`
  helpers: `None`, `""` and `[]` are falsy, dataclass instances are truthy.
-/

namespace Mdto

/-- An XML element as seen through lxml: tag name (namespace stripped),
optional text content, attributes (serialized names), child elements. -/
inductive Elem where
  | mk (tag : String) (text : Option String) (attrs : List (String × String))
       (children : List Elem)
deriving Repr

def Elem.tag : Elem → String
  | .mk t _ _ _ => t

def Elem.text : Elem → Option String
  | .mk _ x _ _ => x

def Elem.attrs : Elem → List (String × String)
  | .mk _ _ a _ => a

def Elem.children : Elem → List Elem
  | .mk _ _ _ c => c

/-- `ET.SubElement(root, tag)` followed by `elem.text = value`. -/
def leaf (tag : String) (txt : Option String) : Elem := .mk tag txt [] []

/-- An element with children and no text of its own. -/
def node (tag : String) (kids : List Elem) : Elem := .mk tag none [] kids

/-- Python exceptions and process exits that the mdto module can produce.
The spec groups `keyErrorUnknownTag` and `valueErrorTopLevel` under the
name `SchemaViolation`, and `valueErrorBadInt` under `FormatError`. -/
inductive PyErr where
  /-- `KeyError` from `mdto_xml_parsers[mdto_field]` in `elem_to_mdto`. -/
  | keyErrorUnknownTag (tag : String)
  /-- `ValueError` raised by `from_file` for an unexpected first child of `<MDTO>`. -/
  | valueErrorTopLevel (tag : String)
  /-- `ValueError` raised by `int()` in `parse_int`. -/
  | valueErrorBadInt
  /-- `IndexError` from `node[0]` / `node[1]`. -/
  | indexError
  /-- `TypeError`: e.g. `to_xml()` called with an unexpected argument, or `len(None)`. -/
  | typeErrorCall
  /-- `AttributeError`: e.g. `.to_xml` on a plain Python list. -/
  | attributeErrorCall
  /-- `sys.exit(-1)` reached through `_warn` (force disabled) or `_error`. -/
  | systemExit
  /-- Marker for parsed shapes that the typed records of this embedding cannot
  store (Python would store them and fail later); unreachable in all theorems. -/
  | shapeMismatch (field : String)
deriving DecidableEq, Repr

/-- The spec error class `SchemaViolation`: unrecognized child element, or an
unknown top-level wrapper child. -/
def PyErr.isSchemaViolation : PyErr → Bool
  | .keyErrorUnknownTag _ => true
  | .valueErrorTopLevel _ => true
  | _ => false

/-- The spec error class `FormatError`: non-integer text where an integer is
expected. -/
def PyErr.isFormatError : PyErr → Bool
  | .valueErrorBadInt => true
  | _ => false

/-- A value that Python callers may supply either bare or as a list
(`X | List[X]` dataclass annotations). -/
inductive OneOrList (α : Type) where
  | one (a : α)
  | list (l : List α)
deriving DecidableEq, Repr

/-- The list a `OneOrList` denotes after the `isinstance` normalization in
`to_xml` (`self.field = [self.field]` for a bare value). -/
def OneOrList.toList {α : Type} : OneOrList α → List α
  | .one a => [a]
  | .list l => l

/-- Python truthiness of an optional string: `None` and `""` are falsy. -/
def pyTruthyStr : Option String → Bool
  | none => false
  | some s => s ≠ ""

/-- Python truthiness of an optional single-or-list of strings (the
`trefwoord` field): `None`, `""` and `[]` are falsy. -/
def pyTruthyStrs : Option (OneOrList (Option String)) → Bool
  | none => false
  | some (.one t) => pyTruthyStr t
  | some (.list l) => !l.isEmpty

/-- Python truthiness of an optional single-or-list of dataclass instances:
`None` and `[]` are falsy, instances are truthy. -/
def pyTruthyObjs {α : Type} : Option (OneOrList α) → Bool
  | none => false
  | some (.one _) => true
  | some (.list l) => !l.isEmpty

/-- `MAX_NAAM_LENGTH` global. -/
def MAX_NAAM_LENGTH : Nat := 80

/-- The child elements an optional composite field contributes to its
parent: one element when present (`if self.field: root.append(...)`),
nothing when absent. -/
def optElems {γ : Type} (f : γ → Elem) : Option γ → List Elem
  | some x => [f x]
  | none => []

/-- The child elements an optional text field contributes
(`if self.field:` skips `None` and `""`). -/
def guardTextElems (t : String) (o : Option String) : List Elem :=
  if pyTruthyStr o then [leaf t o] else []

/-- The child elements an optional repeatable composite field contributes:
one element per item when the field is truthy, nothing otherwise. -/
def guardRepElems {γ : Type} (f : γ → Elem) (o : Option (OneOrList γ)) : List Elem :=
  if pyTruthyObjs o then ((o.map OneOrList.toList).getD []).map f else []

/-- The child elements of the `trefwoord` field (repeatable text). -/
def trefwoordElems (o : Option (OneOrList (Option String))) : List Elem :=
  if pyTruthyStrs o then
    ((o.map OneOrList.toList).getD []).map (fun t => leaf "trefwoord" t)
  else []

/-- Whether `_warn` lets execution continue: it logs and then calls
`sys.exit(-1)` unless the `force` flag is set. -/
def warnContinues (force : Bool) : Bool := force

/-- Whether `_warn`/`_log` actually print the warning: suppressed by `quiet`. -/
def warnLogged (quiet : Bool) : Bool := !quiet

/-! ## Record types (the dataclasses) and their `to_xml` serializers -/

/-- `IdentificatieGegevens` dataclass. -/
structure IdentificatieGegevens where
  identificatieKenmerk : Option String
  identificatieBron : Option String
deriving DecidableEq, Repr

def IdentificatieGegevens.to_xml (g : IdentificatieGegevens) (root : String) : Elem :=
  .mk root none []
    [leaf "identificatieKenmerk" g.identificatieKenmerk,
     leaf "identificatieBron" g.identificatieBron]

/-- `VerwijzingGegevens` dataclass. -/
structure VerwijzingGegevens where
  verwijzingNaam : Option String
  verwijzingIdentificatie : Option IdentificatieGegevens := none
deriving DecidableEq, Repr

def VerwijzingGegevens.to_xml (g : VerwijzingGegevens) (root : String) : Elem :=
  .mk root none []
    ([leaf "verwijzingNaam" g.verwijzingNaam] ++
      match g.verwijzingIdentificatie with
      | some i => [i.to_xml "verwijzingIdentificatie"]
      | none => [])

/-- `BegripGegevens` dataclass. -/
structure BegripGegevens where
  begripLabel : Option String
  begripBegrippenlijst : VerwijzingGegevens
  begripCode : Option String := none
deriving DecidableEq, Repr

def BegripGegevens.to_xml (g : BegripGegevens) (root : String) : Elem :=
  .mk root none []
    ([leaf "begripLabel" g.begripLabel] ++
     (if pyTruthyStr g.begripCode then [leaf "begripCode" g.begripCode] else []) ++
     [g.begripBegrippenlijst.to_xml "begripBegrippenlijst"])

/-- `TermijnGegevens` dataclass. -/
structure TermijnGegevens where
  termijnTriggerStartLooptijd : Option BegripGegevens := none
  termijnStartdatumLooptijd : Option String := none
  termijnLooptijd : Option String := none
  termijnEinddatum : Option String := none
deriving DecidableEq, Repr

def TermijnGegevens.to_xml (g : TermijnGegevens) (root : String) : Elem :=
  .mk root none []
    ((match g.termijnTriggerStartLooptijd with
      | some b => [b.to_xml "termijnTriggerStartLooptijd"]
      | none => []) ++
     (if pyTruthyStr g.termijnStartdatumLooptijd then
        [leaf "termijnStartdatumLooptijd" g.termijnStartdatumLooptijd] else []) ++
     (if pyTruthyStr g.termijnLooptijd then
        [leaf "termijnLooptijd" g.termijnLooptijd] else []) ++
     (if pyTruthyStr g.termijnEinddatum then
        [leaf "termijnEinddatum" g.termijnEinddatum] else []))

/-- `ChecksumGegevens` dataclass. -/
structure ChecksumGegevens where
  checksumAlgoritme : BegripGegevens
  checksumWaarde : Option String
  checksumDatum : Option String
deriving DecidableEq, Repr

def ChecksumGegevens.to_xml (g : ChecksumGegevens) : Elem :=
  node "checksum"
    [g.checksumAlgoritme.to_xml "checksumAlgoritme",
     leaf "checksumWaarde" g.checksumWaarde,
     leaf "checksumDatum" g.checksumDatum]

/-- `BeperkingGebruikGegevens` dataclass. -/
structure BeperkingGebruikGegevens where
  beperkingGebruikType : BegripGegevens
  beperkingGebruikNadereBeschrijving : Option String := none
  beperkingGebruikDocumentatie : Option VerwijzingGegevens := none
  beperkingGebruikTermijn : Option TermijnGegevens := none
deriving DecidableEq, Repr

def BeperkingGebruikGegevens.to_xml (g : BeperkingGebruikGegevens) : Elem :=
  node "beperkingGebruik"
    ([g.beperkingGebruikType.to_xml "beperkingGebruikType"] ++
     (if pyTruthyStr g.beperkingGebruikNadereBeschrijving then
        [leaf "beperkingGebruikNadereBeschrijving" g.beperkingGebruikNadereBeschrijving]
      else []) ++
     (match g.beperkingGebruikDocumentatie with
      | some v => [v.to_xml "beperkingGebruikDocumentatie"]
      | none => []) ++
     (match g.beperkingGebruikTermijn with
      | some t => [t.to_xml "beperkingGebruikTermijn"]
      | none => []))

/-- `DekkingInTijdGegevens` dataclass. -/
structure DekkingInTijdGegevens where
  dekkingInTijdType : BegripGegevens
  dekkingInTijdBegindatum : Option String
  dekkingInTijdEinddatum : Option String := none
deriving DecidableEq, Repr

def DekkingInTijdGegevens.to_xml (g : DekkingInTijdGegevens) : Elem :=
  node "dekkingInTijd"
    ([g.dekkingInTijdType.to_xml "dekkingInTijdType",
      leaf "dekkingInTijdBegindatum" g.dekkingInTijdBegindatum] ++
     (if pyTruthyStr g.dekkingInTijdEinddatum then
        [leaf "dekkingInTijdEinddatum" g.dekkingInTijdEinddatum] else []))

/-- `EventGegevens` dataclass. -/
structure EventGegevens where
  eventType : BegripGegevens
  eventTijd : Option String := none
  eventVerantwoordelijkeActor : Option VerwijzingGegevens := none
  eventResultaat : Option String := none
deriving DecidableEq, Repr

def EventGegevens.to_xml (g : EventGegevens) : Elem :=
  node "event"
    ([g.eventType.to_xml "eventType"] ++
     (if pyTruthyStr g.eventTijd then [leaf "eventTijd" g.eventTijd] else []) ++
     (match g.eventVerantwoordelijkeActor with
      | some v => [v.to_xml "eventVerantwoordelijkeActor"]
      | none => []) ++
     (if pyTruthyStr g.eventResultaat then
        [leaf "eventResultaat" g.eventResultaat] else []))

/-- `RaadpleeglocatieGegevens` dataclass (fields as stored after the
`raadpleeglocatieOnline` property setter ran; see `mkRaadpleeglocatie`). -/
structure RaadpleeglocatieGegevens where
  raadpleeglocatieFysiek : Option VerwijzingGegevens := none
  raadpleeglocatieOnline : Option String := none
deriving DecidableEq, Repr

def RaadpleeglocatieGegevens.to_xml (g : RaadpleeglocatieGegevens) : Elem :=
  node "raadpleeglocatie"
    ((match g.raadpleeglocatieFysiek with
      | some v => [v.to_xml "raadpleeglocatieFysiek"]
      | none => []) ++
     (if pyTruthyStr g.raadpleeglocatieOnline then
        [leaf "raadpleeglocatieOnline" g.raadpleeglocatieOnline] else []))

/-- `GerelateerdInformatieobjectGegevens` dataclass.  NB: its `to_xml` takes
no root-name argument; the root tag is fixed. -/
structure GerelateerdInformatieobjectGegevens where
  gerelateerdInformatieobjectVerwijzing : VerwijzingGegevens
  gerelateerdInformatieobjectTypeRelatie : BegripGegevens
deriving DecidableEq, Repr

def GerelateerdInformatieobjectGegevens.to_xml
    (g : GerelateerdInformatieobjectGegevens) : Elem :=
  node "gerelateerdInformatieobject"
    [g.gerelateerdInformatieobjectVerwijzing.to_xml "gerelateerdInformatieobjectVerwijzing",
     g.gerelateerdInformatieobjectTypeRelatie.to_xml "gerelateerdInformatieobjectTypeRelatie"]

/-- `BetrokkeneGegevens` dataclass. -/
structure BetrokkeneGegevens where
  betrokkeneTypeRelatie : BegripGegevens
  betrokkeneActor : VerwijzingGegevens
deriving DecidableEq, Repr

def BetrokkeneGegevens.to_xml (g : BetrokkeneGegevens) : Elem :=
  node "betrokkene"
    [g.betrokkeneTypeRelatie.to_xml "betrokkeneTypeRelatie",
     g.betrokkeneActor.to_xml "betrokkeneActor"]

/-! ## Python `str`/`int` conversions for the `omvang` field -/

/-- The decimal digit character for `d < 10`. -/
def digitChar (d : Nat) : Char := Char.ofNat (48 + d)

/-- Python `str(n)` for a natural number: most-significant-first decimal
digits, with `"0"` for zero. -/
def digitsF : Nat → Nat → List Nat
  | _, 0 => []
  | 0, _ + 1 => []
  | fuel + 1, n + 1 => (n + 1) % 10 :: digitsF fuel ((n + 1) / 10)

def pyStrOfNat (n : Nat) : String :=
  if n = 0 then "0" else ⟨((digitsF n n).map digitChar).reverse⟩

/-- Python `str(n)` for an `int`. -/
def pyStrOfInt : Int → String
  | .ofNat n => pyStrOfNat n
  | .negSucc m => "-" ++ pyStrOfNat (m + 1)

/-- ASCII whitespace stripped by Python `int(str)`. -/
def isPyWs (c : Char) : Bool :=
  c == ' ' || c == '\t' || c == '\n' || c == '\r' || c == Char.ofNat 11 || c == Char.ofNat 12

/-- Digit-group check of Python `int(str)`: nonempty decimal digits, where a
single underscore may stand between two digits. -/
def pyDigitsRest : List Char → Bool
  | [] => true
  | c :: cs =>
    if c = '_' then
      match cs with
      | [] => false
      | d :: cs2 => d.isDigit && pyDigitsRest cs2
    else c.isDigit && pyDigitsRest cs

def pyDigitsOk : List Char → Bool
  | [] => false
  | c :: cs => c.isDigit && pyDigitsRest cs

/-- Numeric value of a most-significant-first digit list (underscores
already removed). -/
def digitsToNat (cs : List Char) : Nat :=
  cs.foldl (fun a c => 10 * a + (c.toNat - 48)) 0

/-- The value of a digit group accepted by `pyDigitsOk`. -/
def pyGroupVal (cs : List Char) : Nat :=
  digitsToNat (cs.filter (fun c => c != '_'))

/-- Model of CPython `int(s)` in base 10 on ASCII input: strip surrounding
whitespace, allow one optional sign, then a digit group with optional
underscores between digits; anything else raises `ValueError` (`none`). -/
def pyIntCore : List Char → Option Int
  | [] => none
  | c :: rest =>
    if c = '+' then
      (if pyDigitsOk rest then some (Int.ofNat (pyGroupVal rest)) else none)
    else if c = '-' then
      (if pyDigitsOk rest then some (-(Int.ofNat (pyGroupVal rest))) else none)
    else
      (if pyDigitsOk (c :: rest) then some (Int.ofNat (pyGroupVal (c :: rest)))
       else none)

def pyInt (s : String) : Option Int :=
  pyIntCore (((s.data.dropWhile isPyWs).reverse.dropWhile isPyWs).reverse)

/-! ## Top-level record types -/

/-- `Informatieobject` dataclass (field order and `X | List[X]` annotations
as in the source). -/
structure Informatieobject where
  naam : Option String
  identificatie : OneOrList IdentificatieGegevens
  archiefvormer : OneOrList VerwijzingGegevens
  beperkingGebruik : OneOrList BeperkingGebruikGegevens
  waardering : BegripGegevens
  aggregatieniveau : Option BegripGegevens := none
  classificatie : Option BegripGegevens := none
  trefwoord : Option (OneOrList (Option String)) := none
  omschrijving : Option String := none
  raadpleeglocatie : Option RaadpleeglocatieGegevens := none
  dekkingInTijd : Option DekkingInTijdGegevens := none
  dekkingInRuimte : Option VerwijzingGegevens := none
  taal : Option String := none
  event : Option (OneOrList EventGegevens) := none
  bewaartermijn : Option TermijnGegevens := none
  informatiecategorie : Option BegripGegevens := none
  bevatOnderdeel : Option (OneOrList VerwijzingGegevens) := none
  isOnderdeelVan : Option VerwijzingGegevens := none
  heeftRepresentatie : Option VerwijzingGegevens := none
  aanvullendeMetagegevens : Option (OneOrList VerwijzingGegevens) := none
  gerelateerdInformatieobject : Option GerelateerdInformatieobjectGegevens := none
  betrokkene : Option (OneOrList BetrokkeneGegevens) := none
  activiteit : Option VerwijzingGegevens := none
deriving DecidableEq, Repr

/-- Attributes of the `<MDTO>` root element (default namespace, `xsi`
namespace, `xsi:schemaLocation`), in their serialized spelling. -/
def mdtoAttrs : List (String × String) :=
  [("xmlns", "https://www.nationaalarchief.nl/mdto"),
   ("xmlns:xsi", "http://www.w3.org/2001/XMLSchema-instance"),
   ("xsi:schemaLocation",
    "https://www.nationaalarchief.nl/mdto https://www.nationaalarchief.nl/mdto/MDTO-XML1.0.1.xsd")]

/-- The children of `<informatieobject>` built by `Informatieobject.to_xml`,
in the emission order of the source.  Two statements in the source raise:
`self.gerelateerdInformatieobject.to_xml("gerelateerdInformatieobject")`
passes an argument to a method defined without one (`TypeError`), and
`self.archiefvormer.to_xml(...)` on a plain list has no such attribute
(`AttributeError`); the `TypeError` site comes first in the source. -/
def Informatieobject.kids (io : Informatieobject) : Except PyErr (List Elem) :=
  match io.gerelateerdInformatieobject with
  | some _ => .error .typeErrorCall
  | none =>
    match io.archiefvormer with
    | .list _ => .error .attributeErrorCall
    | .one archiefvormerV => .ok
      ((io.identificatie.toList.map (fun i => i.to_xml "identificatie")) ++
       [leaf "naam" io.naam] ++
       optElems (fun b => b.to_xml "aggregatieniveau") io.aggregatieniveau ++
       optElems (fun b => b.to_xml "classificatie") io.classificatie ++
       trefwoordElems io.trefwoord ++
       guardTextElems "omschrijving" io.omschrijving ++
       optElems RaadpleeglocatieGegevens.to_xml io.raadpleeglocatie ++
       optElems DekkingInTijdGegevens.to_xml io.dekkingInTijd ++
       optElems (fun v => v.to_xml "dekkingInRuimte") io.dekkingInRuimte ++
       guardTextElems "taal" io.taal ++
       guardRepElems EventGegevens.to_xml io.event ++
       [io.waardering.to_xml "waardering"] ++
       optElems (fun t => t.to_xml "bewaartermijn") io.bewaartermijn ++
       optElems (fun b => b.to_xml "informatiecategorie") io.informatiecategorie ++
       optElems (fun v => v.to_xml "isOnderdeelVan") io.isOnderdeelVan ++
       guardRepElems (fun v => v.to_xml "bevatOnderdeel") io.bevatOnderdeel ++
       optElems (fun v => v.to_xml "heeftRepresentatie") io.heeftRepresentatie ++
       guardRepElems (fun v => v.to_xml "aanvullendeMetagegevens")
         io.aanvullendeMetagegevens ++
       [archiefvormerV.to_xml "archiefvormer"] ++
       guardRepElems BetrokkeneGegevens.to_xml io.betrokkene ++
       optElems (fun v => v.to_xml "activiteit") io.activiteit ++
       (io.beperkingGebruik.toList.map BeperkingGebruikGegevens.to_xml))

/-- The in-place normalizations `Informatieobject.to_xml` performs on `self`:
bare values of repeatable fields are wrapped into one-element lists, but for
the optional repeatable fields only when the field is truthy, because the
`isinstance` wrap sits inside `if self.field:`.  `archiefvormer` and
`gerelateerdInformatieobject` are never rewritten. -/
def Informatieobject.normalizeSelf (io : Informatieobject) : Informatieobject :=
  { io with
    identificatie := .list io.identificatie.toList
    trefwoord :=
      if pyTruthyStrs io.trefwoord then io.trefwoord.map (fun t => .list t.toList)
      else io.trefwoord
    event :=
      if pyTruthyObjs io.event then io.event.map (fun e => .list e.toList)
      else io.event
    bevatOnderdeel :=
      if pyTruthyObjs io.bevatOnderdeel then io.bevatOnderdeel.map (fun v => .list v.toList)
      else io.bevatOnderdeel
    aanvullendeMetagegevens :=
      if pyTruthyObjs io.aanvullendeMetagegevens then
        io.aanvullendeMetagegevens.map (fun v => .list v.toList)
      else io.aanvullendeMetagegevens
    betrokkene :=
      if pyTruthyObjs io.betrokkene then io.betrokkene.map (fun b => .list b.toList)
      else io.betrokkene
    beperkingGebruik := .list io.beperkingGebruik.toList }

/-- `Informatieobject.to_xml`: the `<MDTO>` tree and the mutated `self`.
On an exception the partial in-place normalization is not modelled (no
claim depends on the state of the object after a failed serialization). -/
def Informatieobject.to_xml (io : Informatieobject) :
    Except PyErr (Elem × Informatieobject) := do
  let ks ← io.kids
  .ok (Elem.mk "MDTO" none mdtoAttrs [node "informatieobject" ks], io.normalizeSelf)

/-- `Bestand` dataclass.  Use `mkBestand` for the constructor including the
`URLBestand` property setter and `__post_init__`. -/
structure Bestand where
  naam : Option String
  identificatie : OneOrList IdentificatieGegevens
  omvang : Int
  bestandsformaat : Option BegripGegevens
  checksum : OneOrList ChecksumGegevens
  isRepresentatieVan : Option VerwijzingGegevens
  URLBestand : Option String := none
deriving DecidableEq, Repr

/-- Modelled from the spec: the URL validator collaborator (`validators.url`,
listed as an external primitive).  Accepts strings with an `http(s)://`
scheme, a nonempty host part and no spaces. -/
def validatorsUrl (s : String) : Bool :=
  (("http://".data.isPrefixOf s.data && s.length > 7) ||
   ("https://".data.isPrefixOf s.data && s.length > 8))
    && !s.data.any (fun c => c == ' ')

/-- The `Bestand(...)` constructor: dataclass field assignment (including the
`URLBestand` property setter, which warns on a malformed URL but stores it
anyway when execution continues) followed by `__post_init__` (which warns when
`naam` exceeds `MAX_NAAM_LENGTH`; `len(None)` would raise `TypeError`).
`_warn` exits the process unless `force` is set; `quiet` only silences the
message. -/
def mkBestand (force : Bool) (_quiet : Bool) (naam : Option String)
    (identificatie : OneOrList IdentificatieGegevens) (omvang : Int)
    (bestandsformaat : Option BegripGegevens) (checksum : OneOrList ChecksumGegevens)
    (isRepresentatieVan : Option VerwijzingGegevens) (url : Option String) :
    Except PyErr Bestand := do
  -- URLBestand property setter (runs during field initialization)
  (match url with
   | none => .ok ()
   | some u =>
     if validatorsUrl u then .ok ()
     else if warnContinues force then .ok () else .error .systemExit)
  -- __post_init__
  (match naam with
   | none => .error .typeErrorCall
   | some s =>
     if s.length > MAX_NAAM_LENGTH then
       (if warnContinues force then .ok () else .error .systemExit)
     else .ok ())
  .ok { naam, identificatie, omvang, bestandsformaat, checksum,
        isRepresentatieVan, URLBestand := url }

/-- The `RaadpleeglocatieGegevens(...)` constructor: the
`raadpleeglocatieOnline` property setter validates the URL and warns (exit
unless `force`) on a malformed one, still storing the value. -/
def mkRaadpleeglocatie (force : Bool) (fysiek : Option VerwijzingGegevens)
    (online : Option String) : Except PyErr RaadpleeglocatieGegevens :=
  match online with
  | none => .ok { raadpleeglocatieFysiek := fysiek, raadpleeglocatieOnline := none }
  | some u =>
    if validatorsUrl u then
      .ok { raadpleeglocatieFysiek := fysiek, raadpleeglocatieOnline := some u }
    else if warnContinues force then
      .ok { raadpleeglocatieFysiek := fysiek, raadpleeglocatieOnline := some u }
    else .error .systemExit

/-- The children of `<bestand>` built by `Bestand.to_xml`, in emission order.
`self.checksum.to_xml()` on a plain list raises `AttributeError`. -/
def Bestand.kids (b : Bestand) : Except PyErr (List Elem) :=
  match b.checksum with
  | .list _ => .error .attributeErrorCall
  | .one checksumV => .ok
    ((b.identificatie.toList.map (fun i => i.to_xml "identificatie")) ++
     [leaf "naam" b.naam] ++
     [leaf "omvang" (some (pyStrOfInt b.omvang))] ++
     optElems (fun f => f.to_xml "bestandsformaat") b.bestandsformaat ++
     [checksumV.to_xml] ++
     guardTextElems "URLBestand" b.URLBestand ++
     optElems (fun v => v.to_xml "isRepresentatieVan") b.isRepresentatieVan)

/-- `Bestand.to_xml`: the `<MDTO>` tree and the mutated `self`
(`identificatie` is wrapped into a list; `checksum` is not). -/
def Bestand.to_xml (b : Bestand) : Except PyErr (Elem × Bestand) := do
  let ks ← b.kids
  .ok (Elem.mk "MDTO" none mdtoAttrs [node "bestand" ks],
       { b with identificatie := .list b.identificatie.toList })

/-! ## Canonical byte rendering

Models the output path of the test suite's `serialization_chain`:
`ET.indent(tree, space="\t")` followed by `ET.tostring(..., doctype=...)`
plus a closing newline.  Character escaping follows lxml text serialization
(`&`, `<`, `>`).  Recursion is bootstrapped with a fuel parameter so that
all definitions reduce inside the kernel; `renderDoc` passes fuel larger
than the nesting depth of any MDTO document. -/

def escChar (c : Char) : String :=
  if c == '&' then "&amp;"
  else if c == '<' then "&lt;"
  else if c == '>' then "&gt;"
  else String.singleton c

def xmlEscape (s : String) : String :=
  String.join (s.data.map escChar)

def renderAttrs : List (String × String) → String
  | [] => ""
  | (k, v) :: rest => " " ++ k ++ "=\"" ++ v ++ "\"" ++ renderAttrs rest

def tabs : Nat → String
  | 0 => ""
  | n + 1 => "\t" ++ tabs n

def renderElemF : Nat → Nat → Elem → String
  | 0, _, _ => ""
  | fuel + 1, ind, .mk tag txt attrs kids =>
    match kids with
    | [] =>
      (match txt with
       | none => tabs ind ++ "<" ++ tag ++ renderAttrs attrs ++ "/>"
       | some t =>
         tabs ind ++ "<" ++ tag ++ renderAttrs attrs ++ ">" ++ xmlEscape t
           ++ "</" ++ tag ++ ">")
    | _ :: _ =>
      tabs ind ++ "<" ++ tag ++ renderAttrs attrs ++ ">" ++ "\n"
        ++ String.intercalate "\n" (kids.map (renderElemF fuel (ind + 1)))
        ++ "\n" ++ tabs ind ++ "</" ++ tag ++ ">"

/-- Canonical rendering of a document: XML declaration, tab-indented
element tree, trailing newline. -/
def renderDoc (t : Elem) : String :=
  "<?xml version=\"1.0\" encoding=\"UTF-8\"?>" ++ "\n" ++ renderElemF 100 0 t ++ "\n"

/-! ## Generic deserialization engine (`elem_to_mdto`) -/

/-- Association-table lookup (Python dict access). -/
def tblLookup {β : Type} (f : String) : List (String × β) → Option β
  | [] => none
  | (g, b) :: rest => if g = f then some b else tblLookup f rest

/-- `constructor_args[field].append(v)`. -/
def pushVal {β : Type} (f : String) (v : β) (st : List (String × List β)) :
    List (String × List β) :=
  st.map (fun q => (q.1, if q.1 = f then q.2 ++ [v] else q.2))

/-- The loop of `elem_to_mdto`: for each child, strip the namespace prefix
(already done in `Elem.tag`), look up the field's parser (`KeyError` when the
tag is not a key of the table) and append the parsed value to the field's
accumulator. -/
def accumFrom {β : Type} (P : List (String × (Elem → Except PyErr β))) :
    List Elem → List (String × List β) → Except PyErr (List (String × List β))
  | [], st => .ok st
  | c :: cs, st =>
    match tblLookup c.tag P with
    | none => .error (.keyErrorUnknownTag c.tag)
    | some p => do
      let v ← p c
      accumFrom P cs (pushVal c.tag v st)

/-- `constructor_args = {field: [] for field in parsers}`. -/
def initArgs {β : Type} (P : List (String × (Elem → Except PyErr β))) :
    List (String × List β) :=
  P.map (fun q => (q.1, []))

/-- A field's accumulator after the collapse step of `elem_to_mdto`. -/
inductive Collapsed (α : Type) where
  | absent
  | single (a : α)
  | multiple (l : List α)
deriving DecidableEq, Repr

/-- Lines 1146-1152: zero items become `None`, one item becomes the bare
value, more than one stays a list. -/
def collapse {α : Type} : List α → Collapsed α
  | [] => .absent
  | [v] => .single v
  | vs => .multiple vs

def collapseArgs {β : Type} (st : List (String × List β)) :
    List (String × Collapsed β) :=
  st.map (fun q => (q.1, collapse q.2))

/-- `elem_to_mdto(elem, mdto_class, mdto_xml_parsers)`: accumulate child
values per field, collapse the accumulators, call the class constructor. -/
def elem_to_mdto {β τ : Type} (P : List (String × (Elem → Except PyErr β)))
    (mk : List (String × Collapsed β) → Except PyErr τ) (children : List Elem) :
    Except PyErr τ := do
  let st ← accumFrom P children (initArgs P)
  mk (collapseArgs st)

/-! ## The parsers of `from_file` -/

/-- Dynamic value passed from a child parser to a record constructor (the
Python side is untyped; this sum covers every parser's result type). -/
inductive PVal where
  | vText (t : Option String)
  | vInt (n : Int)
  | vIdent (g : IdentificatieGegevens)
  | vVerw (g : VerwijzingGegevens)
  | vBegrip (g : BegripGegevens)
  | vTermijn (g : TermijnGegevens)
  | vBeperking (g : BeperkingGebruikGegevens)
  | vRaadpleeg (g : RaadpleeglocatieGegevens)
  | vDekking (g : DekkingInTijdGegevens)
  | vEvent (g : EventGegevens)
  | vGerelateerd (g : GerelateerdInformatieobjectGegevens)
  | vBetrokkene (g : BetrokkeneGegevens)
  | vChecksum (g : ChecksumGegevens)
deriving DecidableEq, Repr

/-- `parse_text`: `node.text`. -/
def parse_text (e : Elem) : Except PyErr PVal := .ok (.vText e.text)

/-- `parse_int`: `int(node.text)`.  `int(None)` raises `TypeError`; text that
`int` does not accept raises `ValueError`. -/
def parse_int (e : Elem) : Except PyErr Int :=
  match e.text with
  | none => .error .typeErrorCall
  | some s =>
    match pyInt s with
    | some n => .ok n
    | none => .error .valueErrorBadInt

/-- `parse_identificatie`: positional access `node[0].text`, `node[1].text`;
fewer than two children raise `IndexError`. -/
def parse_identificatie (e : Elem) : Except PyErr IdentificatieGegevens :=
  match e.children with
  | k :: b :: _ => .ok ⟨k.text, b.text⟩
  | _ => .error .indexError

/-- `parse_verwijzing`: branch on the child count (`len(node) == 1`); the
else branch reads `node[0]` and `node[1]`, so an empty element raises
`IndexError`. -/
def parse_verwijzing (e : Elem) : Except PyErr VerwijzingGegevens :=
  match e.children with
  | [c] => .ok ⟨c.text, none⟩
  | c0 :: c1 :: _ => (parse_identificatie c1).map (fun i => ⟨c0.text, some i⟩)
  | [] => .error .indexError

/-! Converters from collapsed accumulators to typed dataclass fields.  The
Python constructors store the keyword arguments unchecked; shapes that the
typed records of this embedding cannot hold (and on which Python would only
fail later, while serializing) are mapped to `shapeMismatch`.  None of the
theorems below ever reaches that constructor. -/

def getArg {α : Type} (f : String) (args : List (String × Collapsed α)) :
    Except PyErr (Collapsed α) :=
  match tblLookup f args with
  | some c => .ok c
  | none => .error (.shapeMismatch f)

def exText : PVal → Except PyErr (Option String)
  | .vText t => .ok t
  | _ => .error (.shapeMismatch "text")

def exInt : PVal → Except PyErr Int
  | .vInt n => .ok n
  | _ => .error (.shapeMismatch "int")

def exIdent : PVal → Except PyErr IdentificatieGegevens
  | .vIdent g => .ok g
  | _ => .error (.shapeMismatch "identificatie")

def exVerw : PVal → Except PyErr VerwijzingGegevens
  | .vVerw g => .ok g
  | _ => .error (.shapeMismatch "verwijzing")

def exBegrip : PVal → Except PyErr BegripGegevens
  | .vBegrip g => .ok g
  | _ => .error (.shapeMismatch "begrip")

def exTermijn : PVal → Except PyErr TermijnGegevens
  | .vTermijn g => .ok g
  | _ => .error (.shapeMismatch "termijn")

def exBeperking : PVal → Except PyErr BeperkingGebruikGegevens
  | .vBeperking g => .ok g
  | _ => .error (.shapeMismatch "beperkingGebruik")

def exRaadpleeg : PVal → Except PyErr RaadpleeglocatieGegevens
  | .vRaadpleeg g => .ok g
  | _ => .error (.shapeMismatch "raadpleeglocatie")

def exDekking : PVal → Except PyErr DekkingInTijdGegevens
  | .vDekking g => .ok g
  | _ => .error (.shapeMismatch "dekkingInTijd")

def exEvent : PVal → Except PyErr EventGegevens
  | .vEvent g => .ok g
  | _ => .error (.shapeMismatch "event")

def exGerelateerd : PVal → Except PyErr GerelateerdInformatieobjectGegevens
  | .vGerelateerd g => .ok g
  | _ => .error (.shapeMismatch "gerelateerdInformatieobject")

def exBetrokkene : PVal → Except PyErr BetrokkeneGegevens
  | .vBetrokkene g => .ok g
  | _ => .error (.shapeMismatch "betrokkene")

def exChecksum : PVal → Except PyErr ChecksumGegevens
  | .vChecksum g => .ok g
  | _ => .error (.shapeMismatch "checksum")

/-- An optional scalar field: `None` when absent. -/
def optOf {γ : Type} (ex : PVal → Except PyErr γ) (f : String)
    (args : List (String × Collapsed PVal)) : Except PyErr (Option γ) := do
  match ← getArg f args with
  | .absent => .ok none
  | .single v => (ex v).map some
  | .multiple _ => .error (.shapeMismatch f)

/-- An optional text field: `None` when absent, otherwise the child's text
(which is itself optional). -/
def optTextOf (f : String) (args : List (String × Collapsed PVal)) :
    Except PyErr (Option String) := do
  match ← getArg f args with
  | .absent => .ok none
  | .single v => exText v
  | .multiple _ => .error (.shapeMismatch f)

/-- A required scalar field. -/
def reqOf {γ : Type} (ex : PVal → Except PyErr γ) (f : String)
    (args : List (String × Collapsed PVal)) : Except PyErr γ := do
  match ← getArg f args with
  | .single v => ex v
  | _ => .error (.shapeMismatch f)

/-- An optional repeatable field: `None`, a bare value, or a list. -/
def repOf {γ : Type} (ex : PVal → Except PyErr γ) (f : String)
    (args : List (String × Collapsed PVal)) :
    Except PyErr (Option (OneOrList γ)) := do
  match ← getArg f args with
  | .absent => .ok none
  | .single v => (ex v).map (fun x => some (.one x))
  | .multiple vs => (vs.mapM ex).map (fun xs => some (.list xs))

/-- A required repeatable field. -/
def reqRepOf {γ : Type} (ex : PVal → Except PyErr γ) (f : String)
    (args : List (String × Collapsed PVal)) : Except PyErr (OneOrList γ) := do
  match ← getArg f args with
  | .absent => .error (.shapeMismatch f)
  | .single v => (ex v).map .one
  | .multiple vs => (vs.mapM ex).map .list

/-- `begrip_parsers` dict. -/
def begripTable : List (String × (Elem → Except PyErr PVal)) :=
  [("begripLabel", parse_text),
   ("begripCode", parse_text),
   ("begripBegrippenlijst", fun e => (parse_verwijzing e).map .vVerw)]

def mkBegripArgs (args : List (String × Collapsed PVal)) :
    Except PyErr BegripGegevens := do
  let label ← optTextOf "begripLabel" args
  let code ← optTextOf "begripCode" args
  let lijst ← reqOf exVerw "begripBegrippenlijst" args
  .ok ⟨label, lijst, code⟩

/-- `parse_begrip`. -/
def parse_begrip (e : Elem) : Except PyErr BegripGegevens :=
  elem_to_mdto begripTable mkBegripArgs e.children

/-- `termijn_parsers` dict. -/
def termijnTable : List (String × (Elem → Except PyErr PVal)) :=
  [("termijnTriggerStartLooptijd", fun e => (parse_begrip e).map .vBegrip),
   ("termijnStartdatumLooptijd", parse_text),
   ("termijnLooptijd", parse_text),
   ("termijnEinddatum", parse_text)]

def mkTermijnArgs (args : List (String × Collapsed PVal)) :
    Except PyErr TermijnGegevens := do
  let trigger ← optOf exBegrip "termijnTriggerStartLooptijd" args
  let start ← optTextOf "termijnStartdatumLooptijd" args
  let looptijd ← optTextOf "termijnLooptijd" args
  let eind ← optTextOf "termijnEinddatum" args
  .ok ⟨trigger, start, looptijd, eind⟩

/-- `parse_termijn`. -/
def parse_termijn (e : Elem) : Except PyErr TermijnGegevens :=
  elem_to_mdto termijnTable mkTermijnArgs e.children

/-- `beperking_parsers` dict. -/
def beperkingTable : List (String × (Elem → Except PyErr PVal)) :=
  [("beperkingGebruikType", fun e => (parse_begrip e).map .vBegrip),
   ("beperkingGebruikNadereBeschrijving", parse_text),
   ("beperkingGebruikDocumentatie", fun e => (parse_verwijzing e).map .vVerw),
   ("beperkingGebruikTermijn", fun e => (parse_termijn e).map .vTermijn)]

def mkBeperkingArgs (args : List (String × Collapsed PVal)) :
    Except PyErr BeperkingGebruikGegevens := do
  let ty ← reqOf exBegrip "beperkingGebruikType" args
  let nadere ← optTextOf "beperkingGebruikNadereBeschrijving" args
  let doc ← optOf exVerw "beperkingGebruikDocumentatie" args
  let termijn ← optOf exTermijn "beperkingGebruikTermijn" args
  .ok ⟨ty, nadere, doc, termijn⟩

/-- `parse_beperking`. -/
def parse_beperking (e : Elem) : Except PyErr BeperkingGebruikGegevens :=
  elem_to_mdto beperkingTable mkBeperkingArgs e.children

/-- `raadpleeglocatie_parsers` dict. -/
def raadpleeglocatieTable : List (String × (Elem → Except PyErr PVal)) :=
  [("raadpleeglocatieFysiek", fun e => (parse_verwijzing e).map .vVerw),
   ("raadpleeglocatieOnline", parse_text)]

def mkRaadpleeglocatieArgs (force : Bool) (args : List (String × Collapsed PVal)) :
    Except PyErr RaadpleeglocatieGegevens := do
  let fysiek ← optOf exVerw "raadpleeglocatieFysiek" args
  let online ← optTextOf "raadpleeglocatieOnline" args
  mkRaadpleeglocatie force fysiek online

/-- `parse_raadpleeglocatie`; constructing the dataclass runs the URL
property setter, so the result depends on the force flag. -/
def parse_raadpleeglocatie (force : Bool) (e : Elem) :
    Except PyErr RaadpleeglocatieGegevens :=
  elem_to_mdto raadpleeglocatieTable (mkRaadpleeglocatieArgs force) e.children

/-- `dekking_in_tijd_parsers` dict. -/
def dekkingTable : List (String × (Elem → Except PyErr PVal)) :=
  [("dekkingInTijdType", fun e => (parse_begrip e).map .vBegrip),
   ("dekkingInTijdBegindatum", parse_text),
   ("dekkingInTijdEinddatum", parse_text)]

def mkDekkingArgs (args : List (String × Collapsed PVal)) :
    Except PyErr DekkingInTijdGegevens := do
  let ty ← reqOf exBegrip "dekkingInTijdType" args
  let beginD ← optTextOf "dekkingInTijdBegindatum" args
  let eindD ← optTextOf "dekkingInTijdEinddatum" args
  .ok ⟨ty, beginD, eindD⟩

/-- `parse_dekking_in_tijd`. -/
def parse_dekking_in_tijd (e : Elem) : Except PyErr DekkingInTijdGegevens :=
  elem_to_mdto dekkingTable mkDekkingArgs e.children

/-- `event_parsers` dict. -/
def eventTable : List (String × (Elem → Except PyErr PVal)) :=
  [("eventType", fun e => (parse_begrip e).map .vBegrip),
   ("eventTijd", parse_text),
   ("eventVerantwoordelijkeActor", fun e => (parse_verwijzing e).map .vVerw),
   ("eventResultaat", parse_text)]

def mkEventArgs (args : List (String × Collapsed PVal)) :
    Except PyErr EventGegevens := do
  let ty ← reqOf exBegrip "eventType" args
  let tijd ← optTextOf "eventTijd" args
  let actor ← optOf exVerw "eventVerantwoordelijkeActor" args
  let resultaat ← optTextOf "eventResultaat" args
  .ok ⟨ty, tijd, actor, resultaat⟩

/-- `parse_event`. -/
def parse_event (e : Elem) : Except PyErr EventGegevens :=
  elem_to_mdto eventTable mkEventArgs e.children

/-- `gerelateerd_informatieobject_parsers` dict. -/
def gerelateerdTable : List (String × (Elem → Except PyErr PVal)) :=
  [("gerelateerdInformatieobjectVerwijzing", fun e => (parse_verwijzing e).map .vVerw),
   ("gerelateerdInformatieobjectTypeRelatie", fun e => (parse_begrip e).map .vBegrip)]

def mkGerelateerdArgs (args : List (String × Collapsed PVal)) :
    Except PyErr GerelateerdInformatieobjectGegevens := do
  let verw ← reqOf exVerw "gerelateerdInformatieobjectVerwijzing" args
  let rel ← reqOf exBegrip "gerelateerdInformatieobjectTypeRelatie" args
  .ok ⟨verw, rel⟩

/-- `parse_gerelateerd_informatieobject`. -/
def parse_gerelateerd_informatieobject (e : Elem) :
    Except PyErr GerelateerdInformatieobjectGegevens :=
  elem_to_mdto gerelateerdTable mkGerelateerdArgs e.children

/-- `betrokkene_parsers` dict. -/
def betrokkeneTable : List (String × (Elem → Except PyErr PVal)) :=
  [("betrokkeneTypeRelatie", fun e => (parse_begrip e).map .vBegrip),
   ("betrokkeneActor", fun e => (parse_verwijzing e).map .vVerw)]

def mkBetrokkeneArgs (args : List (String × Collapsed PVal)) :
    Except PyErr BetrokkeneGegevens := do
  let rel ← reqOf exBegrip "betrokkeneTypeRelatie" args
  let actor ← reqOf exVerw "betrokkeneActor" args
  .ok ⟨rel, actor⟩

/-- `parse_betrokkene`. -/
def parse_betrokkene (e : Elem) : Except PyErr BetrokkeneGegevens :=
  elem_to_mdto betrokkeneTable mkBetrokkeneArgs e.children

/-- `checksum_parsers` dict. -/
def checksumTable : List (String × (Elem → Except PyErr PVal)) :=
  [("checksumAlgoritme", fun e => (parse_begrip e).map .vBegrip),
   ("checksumWaarde", parse_text),
   ("checksumDatum", parse_text)]

def mkChecksumArgs (args : List (String × Collapsed PVal)) :
    Except PyErr ChecksumGegevens := do
  let alg ← reqOf exBegrip "checksumAlgoritme" args
  let waarde ← optTextOf "checksumWaarde" args
  let datum ← optTextOf "checksumDatum" args
  .ok ⟨alg, waarde, datum⟩

/-- `parse_checksum`. -/
def parse_checksum (e : Elem) : Except PyErr ChecksumGegevens :=
  elem_to_mdto checksumTable mkChecksumArgs e.children

/-- `informatieobject_parsers` dict (same key order as the source). -/
def informatieobjectTable (force : Bool) : List (String × (Elem → Except PyErr PVal)) :=
  [("naam", parse_text),
   ("identificatie", fun e => (parse_identificatie e).map .vIdent),
   ("aggregatieniveau", fun e => (parse_begrip e).map .vBegrip),
   ("classificatie", fun e => (parse_begrip e).map .vBegrip),
   ("trefwoord", parse_text),
   ("omschrijving", parse_text),
   ("raadpleeglocatie", fun e => (parse_raadpleeglocatie force e).map .vRaadpleeg),
   ("dekkingInTijd", fun e => (parse_dekking_in_tijd e).map .vDekking),
   ("dekkingInRuimte", fun e => (parse_verwijzing e).map .vVerw),
   ("taal", parse_text),
   ("event", fun e => (parse_event e).map .vEvent),
   ("waardering", fun e => (parse_begrip e).map .vBegrip),
   ("bewaartermijn", fun e => (parse_termijn e).map .vTermijn),
   ("informatiecategorie", fun e => (parse_begrip e).map .vBegrip),
   ("isOnderdeelVan", fun e => (parse_verwijzing e).map .vVerw),
   ("bevatOnderdeel", fun e => (parse_verwijzing e).map .vVerw),
   ("heeftRepresentatie", fun e => (parse_verwijzing e).map .vVerw),
   ("aanvullendeMetagegevens", fun e => (parse_verwijzing e).map .vVerw),
   ("gerelateerdInformatieobject",
     fun e => (parse_gerelateerd_informatieobject e).map .vGerelateerd),
   ("archiefvormer", fun e => (parse_verwijzing e).map .vVerw),
   ("betrokkene", fun e => (parse_betrokkene e).map .vBetrokkene),
   ("activiteit", fun e => (parse_verwijzing e).map .vVerw),
   ("beperkingGebruik", fun e => (parse_beperking e).map .vBeperking)]

/-- A repeatable text field (`trefwoord`): its items are child texts. -/
def repTextOf (f : String) (args : List (String × Collapsed PVal)) :
    Except PyErr (Option (OneOrList (Option String))) := do
  match ← getArg f args with
  | .absent => .ok none
  | .single v => (exText v).map (fun t => some (.one t))
  | .multiple vs => (vs.mapM exText).map (fun ts => some (.list ts))

/-! Converters from one collapsed accumulator to one typed dataclass field
(the per-field part of `mdto_class(**constructor_args)`; the engine passes
the collapsed accumulators in the table's key order). -/

def asOptText : Collapsed PVal → Except PyErr (Option String)
  | .absent => .ok none
  | .single v => exText v
  | .multiple _ => .error (.shapeMismatch "text")

def asOpt {γ : Type} (ex : PVal → Except PyErr γ) :
    Collapsed PVal → Except PyErr (Option γ)
  | .absent => .ok none
  | .single v => (ex v).map some
  | .multiple _ => .error (.shapeMismatch "opt")

def asReq {γ : Type} (ex : PVal → Except PyErr γ) :
    Collapsed PVal → Except PyErr γ
  | .single v => ex v
  | _ => .error (.shapeMismatch "req")

def asRep {γ : Type} (ex : PVal → Except PyErr γ) :
    Collapsed PVal → Except PyErr (Option (OneOrList γ))
  | .absent => .ok none
  | .single v => (ex v).map (fun x => some (.one x))
  | .multiple vs => (vs.mapM ex).map (fun xs => some (.list xs))

def asReqRep {γ : Type} (ex : PVal → Except PyErr γ) :
    Collapsed PVal → Except PyErr (OneOrList γ)
  | .absent => .error (.shapeMismatch "reqRep")
  | .single v => (ex v).map .one
  | .multiple vs => (vs.mapM ex).map .list

def asRepText : Collapsed PVal → Except PyErr (Option (OneOrList (Option String)))
  | .absent => .ok none
  | .single v => (exText v).map (fun t => some (.one t))
  | .multiple vs => (vs.mapM exText).map (fun ts => some (.list ts))

def mkInformatieobjectArgs (args : List (String × Collapsed PVal)) :
    Except PyErr Informatieobject :=
  match args with
  | [("naam", a1), ("identificatie", a2), ("aggregatieniveau", a3),
     ("classificatie", a4), ("trefwoord", a5), ("omschrijving", a6),
     ("raadpleeglocatie", a7), ("dekkingInTijd", a8), ("dekkingInRuimte", a9),
     ("taal", a10), ("event", a11), ("waardering", a12), ("bewaartermijn", a13),
     ("informatiecategorie", a14), ("isOnderdeelVan", a15),
     ("bevatOnderdeel", a16), ("heeftRepresentatie", a17),
     ("aanvullendeMetagegevens", a18), ("gerelateerdInformatieobject", a19),
     ("archiefvormer", a20), ("betrokkene", a21), ("activiteit", a22),
     ("beperkingGebruik", a23)] => do
    let naam ← asOptText a1
    let identificatie ← asReqRep exIdent a2
    let aggregatieniveau ← asOpt exBegrip a3
    let classificatie ← asOpt exBegrip a4
    let trefwoord ← asRepText a5
    let omschrijving ← asOptText a6
    let raadpleeglocatie ← asOpt exRaadpleeg a7
    let dekkingInTijd ← asOpt exDekking a8
    let dekkingInRuimte ← asOpt exVerw a9
    let taal ← asOptText a10
    let event ← asRep exEvent a11
    let waardering ← asReq exBegrip a12
    let bewaartermijn ← asOpt exTermijn a13
    let informatiecategorie ← asOpt exBegrip a14
    let isOnderdeelVan ← asOpt exVerw a15
    let bevatOnderdeel ← asRep exVerw a16
    let heeftRepresentatie ← asOpt exVerw a17
    let aanvullendeMetagegevens ← asRep exVerw a18
    let gerelateerdInformatieobject ← asOpt exGerelateerd a19
    let archiefvormer ← asReqRep exVerw a20
    let betrokkene ← asRep exBetrokkene a21
    let activiteit ← asOpt exVerw a22
    let beperkingGebruik ← asReqRep exBeperking a23
    .ok { naam, identificatie, archiefvormer, beperkingGebruik, waardering,
          aggregatieniveau, classificatie, trefwoord, omschrijving,
          raadpleeglocatie, dekkingInTijd, dekkingInRuimte, taal, event,
          bewaartermijn, informatiecategorie, bevatOnderdeel, isOnderdeelVan,
          heeftRepresentatie, aanvullendeMetagegevens,
          gerelateerdInformatieobject, betrokkene, activiteit }
  | _ => .error (.shapeMismatch "informatieobject")

/-- `parse_informatieobject` (applied, as in `from_file`, to the list of
children of the `<informatieobject>` element). -/
def parse_informatieobject (force : Bool) (children : List Elem) :
    Except PyErr Informatieobject :=
  elem_to_mdto (informatieobjectTable force) mkInformatieobjectArgs children

/-- `bestand_parsers` dict (same key order as the source). -/
def bestandTable : List (String × (Elem → Except PyErr PVal)) :=
  [("naam", parse_text),
   ("identificatie", fun e => (parse_identificatie e).map .vIdent),
   ("omvang", fun e => (parse_int e).map .vInt),
   ("checksum", fun e => (parse_checksum e).map .vChecksum),
   ("bestandsformaat", fun e => (parse_begrip e).map .vBegrip),
   ("URLBestand", parse_text),
   ("isRepresentatieVan", fun e => (parse_verwijzing e).map .vVerw)]

def mkBestandArgs (force quiet : Bool) (args : List (String × Collapsed PVal)) :
    Except PyErr Bestand :=
  match args with
  | [("naam", a1), ("identificatie", a2), ("omvang", a3), ("checksum", a4),
     ("bestandsformaat", a5), ("URLBestand", a6), ("isRepresentatieVan", a7)] => do
    let naam ← asOptText a1
    let identificatie ← asReqRep exIdent a2
    let omvang ← asReq exInt a3
    let checksum ← asReqRep exChecksum a4
    let bestandsformaat ← asOpt exBegrip a5
    let url ← asOptText a6
    let isRepresentatieVan ← asOpt exVerw a7
    mkBestand force quiet naam identificatie omvang bestandsformaat checksum
      isRepresentatieVan url
  | _ => .error (.shapeMismatch "bestand")

/-- `parse_bestand` (applied to the children of the `<bestand>` element);
constructing the `Bestand` runs the URL setter and `__post_init__`, whose
warnings are gated by the module-level force/quiet flags. -/
def parse_bestand (force quiet : Bool) (children : List Elem) :
    Except PyErr Bestand :=
  elem_to_mdto bestandTable (mkBestandArgs force quiet) children

/-- Result type of `from_file`. -/
inductive MdtoObject where
  | io (g : Informatieobject)
  | bestand (g : Bestand)
deriving DecidableEq, Repr

/-- `from_file`, starting from the already parsed document tree (reading and
parsing the XML bytes is done by the external XML library): take the root's
first child (`root[0]`, `IndexError` when absent), strip the namespace from
its tag, and dispatch on the object type; any other tag raises
`ValueError`. -/
def from_file (force quiet : Bool) (doc : Elem) : Except PyErr MdtoObject :=
  match doc.children with
  | [] => .error .indexError
  | first :: _ =>
    if first.tag = "informatieobject" then
      (parse_informatieobject force first.children).map .io
    else if first.tag = "bestand" then
      (parse_bestand force quiet first.children).map .bestand
    else .error (.valueErrorTopLevel first.tag)

/-- The test suite's `serialization_chain`: `from_file`, then `to_xml`, then
the canonical rendering (tab indentation, XML declaration, trailing
newline). -/
def serializationChain (force quiet : Bool) (doc : Elem) : Except PyErr String := do
  let obj ← from_file force quiet doc
  let tree ←
    match obj with
    | .io g => (g.to_xml).map Prod.fst
    | .bestand g => (g.to_xml).map Prod.fst
  .ok (renderDoc tree)

/-! ## Basic lemmas -/

@[simp] theorem Elem.tag_mk (t : String) (x : Option String)
    (a : List (String × String)) (c : List Elem) : (Elem.mk t x a c).tag = t := rfl

@[simp] theorem Elem.text_mk (t : String) (x : Option String)
    (a : List (String × String)) (c : List Elem) : (Elem.mk t x a c).text = x := rfl

@[simp] theorem Elem.children_mk (t : String) (x : Option String)
    (a : List (String × String)) (c : List Elem) : (Elem.mk t x a c).children = c := rfl

@[simp] theorem leaf_tag (t : String) (x : Option String) : (leaf t x).tag = t := rfl

@[simp] theorem leaf_text (t : String) (x : Option String) : (leaf t x).text = x := rfl

@[simp] theorem leaf_children (t : String) (x : Option String) :
    (leaf t x).children = [] := rfl

@[simp] theorem node_tag (t : String) (ks : List Elem) : (node t ks).tag = t := rfl

@[simp] theorem node_children (t : String) (ks : List Elem) :
    (node t ks).children = ks := rfl

@[simp] theorem OneOrList.toList_one {α : Type} (a : α) :
    (OneOrList.one a).toList = [a] := rfl

@[simp] theorem OneOrList.toList_list {α : Type} (l : List α) :
    (OneOrList.list l).toList = l := rfl

@[simp] theorem IdentificatieGegevens.to_xml_tag_ident (g : IdentificatieGegevens)
    (root : String) : (g.to_xml root).tag = root := rfl

@[simp] theorem VerwijzingGegevens.to_xml_tag_verw (g : VerwijzingGegevens)
    (root : String) : (g.to_xml root).tag = root := rfl

@[simp] theorem BegripGegevens.to_xml_tag_begrip (g : BegripGegevens)
    (root : String) : (g.to_xml root).tag = root := rfl

@[simp] theorem TermijnGegevens.to_xml_tag_termijn (g : TermijnGegevens)
    (root : String) : (g.to_xml root).tag = root := rfl

@[simp] theorem ChecksumGegevens.to_xml_tag_checksum (g : ChecksumGegevens) :
    g.to_xml.tag = "checksum" := rfl

@[simp] theorem BeperkingGebruikGegevens.to_xml_tag_beperking (g : BeperkingGebruikGegevens) :
    g.to_xml.tag = "beperkingGebruik" := rfl

@[simp] theorem DekkingInTijdGegevens.to_xml_tag_dekking (g : DekkingInTijdGegevens) :
    g.to_xml.tag = "dekkingInTijd" := rfl

@[simp] theorem EventGegevens.to_xml_tag_event (g : EventGegevens) :
    g.to_xml.tag = "event" := rfl

@[simp] theorem RaadpleeglocatieGegevens.to_xml_tag_raadpleeg (g : RaadpleeglocatieGegevens) :
    g.to_xml.tag = "raadpleeglocatie" := rfl

@[simp] theorem GerelateerdInformatieobjectGegevens.to_xml_tag_gerelateerd
    (g : GerelateerdInformatieobjectGegevens) :
    g.to_xml.tag = "gerelateerdInformatieobject" := rfl

@[simp] theorem BetrokkeneGegevens.to_xml_tag_betrokkene (g : BetrokkeneGegevens) :
    g.to_xml.tag = "betrokkene" := rfl

/-! ## Correctness of the `str`/`int` model on canonical output -/

theorem digitChar_props {d : Nat} (hd : d < 10) :
    (digitChar d).isDigit = true ∧ (digitChar d).toNat - 48 = d ∧
    (digitChar d = '_') = False ∧ isPyWs (digitChar d) = false ∧
    (digitChar d = '+') = False ∧ (digitChar d = '-') = False := by
  interval_cases d <;> refine ⟨by decide, by decide, by decide, by decide, by decide, by decide⟩

theorem pyDigitsRest_of_digits (cs : List Char) (h : ∀ c ∈ cs, c.isDigit) :
    pyDigitsRest cs = true := by
  induction cs with
  | nil => rfl
  | cons c cs ih =>
    have hc : c.isDigit := h c (List.mem_cons_self c cs)
    have hne : ¬(c = '_') := by
      intro he; rw [he] at hc; exact absurd hc (by decide)
    rw [pyDigitsRest.eq_def]
    simp only [if_neg hne, hc, ih (fun x hx => h x (List.mem_cons_of_mem c hx)),
      Bool.and_self]

theorem pyDigitsOk_of_digits (cs : List Char) (hne : cs ≠ [])
    (h : ∀ c ∈ cs, c.isDigit) : pyDigitsOk cs = true := by
  cases cs with
  | nil => exact absurd rfl hne
  | cons c cs =>
    rw [pyDigitsOk, h c (List.mem_cons_self c cs),
      pyDigitsRest_of_digits cs (fun x hx => h x (List.mem_cons_of_mem c hx))]
    rfl

theorem filter_underscore_of_digits (cs : List Char) (h : ∀ c ∈ cs, c.isDigit) :
    cs.filter (fun c => c != '_') = cs := by
  induction cs with
  | nil => rfl
  | cons c cs ih =>
    have hc : c.isDigit := h c (List.mem_cons_self c cs)
    have hne : (c != '_') = true := by
      cases hcc : c == '_' with
      | true =>
        rw [beq_iff_eq] at hcc; rw [hcc] at hc; exact absurd hc (by decide)
      | false => simp [bne, hcc]
    rw [List.filter_cons, if_pos hne, ih (fun x hx => h x (List.mem_cons_of_mem c hx))]

theorem dropWhile_eq_self_of_not (p : Char → Bool) (l : List Char)
    (h : ∀ c ∈ l, p c = false) : l.dropWhile p = l := by
  cases l with
  | nil => rfl
  | cons c cs => rw [List.dropWhile_cons, h c (List.mem_cons_self c cs)]; simp

theorem foldl_digits (L : List Nat) (h : ∀ d ∈ L, d < 10) (a : Nat) :
    ((L.map digitChar).reverse).foldl (fun a c => 10 * a + (c.toNat - 48)) a =
      a * 10 ^ L.length + Nat.ofDigits 10 L := by
  induction L generalizing a with
  | nil => simp
  | cons d L ih =>
    have hd : d < 10 := h d (List.mem_cons_self d L)
    have hL : ∀ x ∈ L, x < 10 := fun x hx => h x (List.mem_cons_of_mem d hx)
    rw [List.map_cons, List.reverse_cons, List.foldl_append, ih hL]
    simp only [List.foldl_cons, List.foldl_nil, (digitChar_props hd).2.1,
      Nat.ofDigits_cons, List.length_cons]
    ring

theorem pyGroupVal_digits (L : List Nat) (h : ∀ d ∈ L, d < 10) :
    pyGroupVal ((L.map digitChar).reverse) = Nat.ofDigits 10 L := by
  have hdig : ∀ c ∈ (L.map digitChar).reverse, c.isDigit := by
    intro c hc
    rw [List.mem_reverse, List.mem_map] at hc
    obtain ⟨d, hd, rfl⟩ := hc
    exact (digitChar_props (h d hd)).1
  rw [pyGroupVal, filter_underscore_of_digits _ hdig, digitsToNat,
    foldl_digits L h 0]
  simp

/-- Helper facts about the digit string of a nonzero natural number. -/
theorem digitsF_eq (fuel : Nat) : ∀ n : Nat, n ≤ fuel → digitsF fuel n = Nat.digits 10 n := by
  induction fuel with
  | zero =>
    intro n h
    interval_cases n
    simp [digitsF]
  | succ f ih =>
    intro n h
    cases n with
    | zero => simp [digitsF]
    | succ m =>
      rw [digitsF, Nat.digits_def' (by norm_num : (1:Nat) < 10) (Nat.succ_pos m),
        ih _ (Nat.le_of_lt_succ (Nat.lt_of_lt_of_le
          (Nat.div_lt_self (Nat.succ_pos m) (by norm_num)) h))]

theorem pyStrOfNat_digits (n : Nat) (hn : n ≠ 0) :
    (pyStrOfNat n).data = ((Nat.digits 10 n).map digitChar).reverse ∧
    (pyStrOfNat n).data ≠ [] ∧
    (∀ c ∈ (pyStrOfNat n).data, c.isDigit) := by
  have hlt : ∀ d ∈ Nat.digits 10 n, d < 10 := fun d hd =>
    Nat.digits_lt_base (by norm_num) hd
  have hdata : (pyStrOfNat n).data = ((Nat.digits 10 n).map digitChar).reverse := by
    rw [pyStrOfNat, if_neg hn, digitsF_eq n n le_rfl]
  refine ⟨hdata, ?_, ?_⟩
  · rw [hdata]
    simp only [ne_eq, List.reverse_eq_nil_iff, List.map_eq_nil_iff]
    exact fun hnil => hn (Nat.digits_eq_nil_iff_eq_zero.mp hnil)
  · intro c hc
    rw [hdata, List.mem_reverse, List.mem_map] at hc
    obtain ⟨d, hd, rfl⟩ := hc
    exact (digitChar_props (hlt d hd)).1

/-- Python `int(str(n))` gives back `n` for every natural number. -/
theorem pyInt_pyStrOfNat (n : Nat) : pyInt (pyStrOfNat n) = some (Int.ofNat n) := by
  by_cases hn : n = 0
  · subst hn; decide
  · obtain ⟨hdata, hne, hdig⟩ := pyStrOfNat_digits n hn
    have hnws : ∀ c ∈ (pyStrOfNat n).data, isPyWs c = false := by
      intro c hc
      rcases List.mem_reverse.mp (hdata ▸ hc : c ∈ ((Nat.digits 10 n).map digitChar).reverse)
        |> List.mem_map.mp with ⟨d, hd, rfl⟩
      exact (digitChar_props (Nat.digits_lt_base (by norm_num) hd)).2.2.2.1
    have hnws2 : ∀ c ∈ (pyStrOfNat n).data.reverse, isPyWs c = false := by
      intro c hc; exact hnws c (List.mem_reverse.mp hc)
    rw [pyInt, dropWhile_eq_self_of_not _ _ hnws, dropWhile_eq_self_of_not _ _ hnws2,
      List.reverse_reverse]
    cases hcase : (pyStrOfNat n).data with
    | nil => exact absurd hcase hne
    | cons c rest =>
      have hc : c.isDigit := hdig c (hcase ▸ List.mem_cons_self c rest)
      have hplus : ¬(c = '+') := by intro he; rw [he] at hc; exact absurd hc (by decide)
      have hminus : ¬(c = '-') := by intro he; rw [he] at hc; exact absurd hc (by decide)
      rw [pyIntCore, if_neg hplus, if_neg hminus,
        if_pos (pyDigitsOk_of_digits _ (by simp) (hcase ▸ hdig))]
      have : pyGroupVal (c :: rest) = n := by
        rw [← hcase, hdata,
          pyGroupVal_digits _ (fun d hd => Nat.digits_lt_base (by norm_num) hd),
          Nat.ofDigits_digits]
      rw [this]

/-- Python `int(str(n))` gives back `n` for every integer (the `omvang`
round trip). -/
theorem pyInt_pyStrOfInt (n : Int) : pyInt (pyStrOfInt n) = some n := by
  cases n with
  | ofNat m => rw [pyStrOfInt]; exact pyInt_pyStrOfNat m
  | negSucc m =>
    rw [pyStrOfInt]
    obtain ⟨hdata, hne, hdig⟩ := pyStrOfNat_digits (m + 1) (Nat.succ_ne_zero m)
    have hnws : ∀ c ∈ (pyStrOfNat (m + 1)).data, isPyWs c = false := by
      intro c hc
      rcases List.mem_reverse.mp
          (hdata ▸ hc : c ∈ ((Nat.digits 10 (m + 1)).map digitChar).reverse)
        |> List.mem_map.mp with ⟨d, hd, rfl⟩
      exact (digitChar_props (Nat.digits_lt_base (by norm_num) hd)).2.2.2.1
    have hfull : ("-" ++ pyStrOfNat (m + 1)).data = '-' :: (pyStrOfNat (m + 1)).data := by
      simp [String.data_append]
    have hnwsfull : ∀ c ∈ ("-" ++ pyStrOfNat (m + 1)).data, isPyWs c = false := by
      intro c hc
      rw [hfull] at hc
      rcases List.mem_cons.mp hc with rfl | hc
      · decide
      · exact hnws c hc
    have hnws2 : ∀ c ∈ ("-" ++ pyStrOfNat (m + 1)).data.reverse, isPyWs c = false := by
      intro c hc; exact hnwsfull c (List.mem_reverse.mp hc)
    rw [pyInt, dropWhile_eq_self_of_not _ _ hnwsfull,
      dropWhile_eq_self_of_not _ _ hnws2, List.reverse_reverse, hfull]
    rw [pyIntCore, if_neg (by decide : ¬('-' = '+')), if_pos rfl,
      if_pos (pyDigitsOk_of_digits _ hne hdig)]
    have : pyGroupVal (pyStrOfNat (m + 1)).data = m + 1 := by
      rw [hdata,
        pyGroupVal_digits _ (fun d hd => Nat.digits_lt_base (by norm_num) hd),
        Nat.ofDigits_digits]
    rw [this]
    congr 1

/-! ## Engine lemmas -/

/-- Parsing one child: parser lookup by (stripped) tag, then the parser. -/
def parseChild {β : Type} (P : List (String × (Elem → Except PyErr β))) (c : Elem) :
    Except PyErr β :=
  match tblLookup c.tag P with
  | none => .error (.keyErrorUnknownTag c.tag)
  | some p => p c

theorem accumFrom_nil {β : Type} (P : List (String × (Elem → Except PyErr β))) (st) :
    accumFrom P [] st = .ok st := rfl

theorem accumFrom_cons {β : Type} (P : List (String × (Elem → Except PyErr β)))
    (c : Elem) (cs : List Elem) (st) :
    accumFrom P (c :: cs) st =
      (parseChild P c).bind (fun v => accumFrom P cs (pushVal c.tag v st)) := by
  rw [accumFrom, parseChild]
  cases tblLookup c.tag P with
  | none => rfl
  | some p => rfl

theorem parseChild_none {β : Type} (P : List (String × (Elem → Except PyErr β)))
    (c : Elem) (h : tblLookup c.tag P = none) :
    parseChild P c = .error (.keyErrorUnknownTag c.tag) := by
  rw [parseChild, h]

theorem parseChild_some {β : Type} (P : List (String × (Elem → Except PyErr β)))
    (c : Elem) (p : Elem → Except PyErr β) (h : tblLookup c.tag P = some p) :
    parseChild P c = p c := by
  rw [parseChild, h]

theorem tblLookup_pushVal {β : Type} (f g : String) (v : β)
    (st : List (String × List β)) :
    tblLookup f (pushVal g v st) =
      if g = f then (tblLookup f st).map (fun l => l ++ [v])
      else tblLookup f st := by
  induction st with
  | nil => simp only [pushVal, List.map_nil, tblLookup]; split <;> rfl
  | cons q st ih =>
    obtain ⟨k, l⟩ := q
    simp only [pushVal, List.map_cons, tblLookup] at ih ⊢
    by_cases hkf : k = f
    · subst hkf
      by_cases hgk : g = k
      · subst hgk; simp
      · have hkg : ¬(k = g) := fun h => hgk h.symm
        simp [hkg, hgk]
    · rw [if_neg hkf, if_neg hkf]
      exact ih

theorem tblLookup_initArgs {β : Type} (f : String)
    (P : List (String × (Elem → Except PyErr β))) :
    tblLookup f (initArgs P) = (tblLookup f P).map (fun _ => []) := by
  induction P with
  | nil => rfl
  | cons q P ih =>
    obtain ⟨k, p⟩ := q
    by_cases hk : k = f
    · subst hk; simp [initArgs, tblLookup]
    · simp [initArgs, tblLookup, hk] at ih ⊢
      exact ih

theorem tblLookup_collapseArgs {β : Type} (f : String) (st : List (String × List β)) :
    tblLookup f (collapseArgs st) = (tblLookup f st).map collapse := by
  induction st with
  | nil => rfl
  | cons q st ih =>
    obtain ⟨k, l⟩ := q
    by_cases hk : k = f
    · subst hk; simp [collapseArgs, tblLookup]
    · simp [collapseArgs, tblLookup, hk] at ih ⊢
      exact ih

/-- Accumulator correctness: after a successful pass over all children, the
accumulator of field `f` extends its initial content with the parsed values
of exactly the children tagged `f`, in document order. -/
theorem accumFrom_lookup {β : Type} (P : List (String × (Elem → Except PyErr β)))
    (children : List Elem) (st st' : List (String × List β))
    (hacc : accumFrom P children st = .ok st') (f : String) (l : List β)
    (hl : tblLookup f st = some l) :
    ∃ vs, (children.filter (fun c => c.tag = f)).mapM (parseChild P) = .ok vs ∧
      tblLookup f st' = some (l ++ vs) := by
  induction children generalizing st l with
  | nil =>
    rw [accumFrom_nil] at hacc
    cases hacc
    exact ⟨[], rfl, by simpa using hl⟩
  | cons c cs ih =>
    rw [accumFrom_cons] at hacc
    cases hv : parseChild P c with
    | error e => rw [hv] at hacc; cases hacc
    | ok v =>
      rw [hv] at hacc
      simp only [Except.bind] at hacc
      by_cases htag : c.tag = f
      · have hl2 : tblLookup f (pushVal c.tag v st) = some (l ++ [v]) := by
          rw [tblLookup_pushVal, if_pos htag, hl]; rfl
        obtain ⟨vs, hmap, hlook⟩ := ih _ hacc _ hl2
        refine ⟨v :: vs, ?_, ?_⟩
        · rw [List.filter_cons, if_pos (by simpa using htag), List.mapM_cons, hv, hmap]
          rfl
        · rw [hlook]; simp
      · have hl2 : tblLookup f (pushVal c.tag v st) = some l := by
          rw [tblLookup_pushVal, if_neg htag, hl]
        obtain ⟨vs, hmap, hlook⟩ := ih _ hacc _ hl2
        refine ⟨vs, ?_, hlook⟩
        rw [List.filter_cons, if_neg (by simpa using htag), hmap]

/-- A successful pass implies every child's tag is a key of the table. -/
theorem accumFrom_ok_tags {β : Type} (P : List (String × (Elem → Except PyErr β)))
    (children : List Elem) (st st' : List (String × List β))
    (hacc : accumFrom P children st = .ok st') :
    ∀ c ∈ children, ∃ p, tblLookup c.tag P = some p := by
  induction children generalizing st with
  | nil => intro c hc; cases hc
  | cons c cs ih =>
    intro x hx
    rw [accumFrom_cons] at hacc
    cases hv : parseChild P c with
    | error e => rw [hv] at hacc; cases hacc
    | ok v =>
      rw [hv] at hacc
      simp only [Except.bind] at hacc
      rcases List.mem_cons.mp hx with rfl | hx2
      · cases hlook : tblLookup x.tag P with
        | none => rw [parseChild_none P x hlook] at hv; cases hv
        | some p => exact ⟨p, rfl⟩
      · exact ih (pushVal c.tag v st) hacc x hx2

/-- If some child's tag is not a key of the table (and parsers themselves do
not fail first), the pass raises the `KeyError` of such a tag. -/
theorem accumFrom_unknown {β : Type} (P : List (String × (Elem → Except PyErr β)))
    (children : List Elem) (st : List (String × List β))
    (hok : ∀ c ∈ children, ∀ p, tblLookup c.tag P = some p → ∃ v, p c = .ok v)
    (hbad : ∃ c ∈ children, tblLookup c.tag P = none) :
    ∃ t, tblLookup t P = none ∧
      accumFrom P children st = .error (.keyErrorUnknownTag t) := by
  induction children generalizing st with
  | nil => obtain ⟨c, hc, _⟩ := hbad; cases hc
  | cons c cs ih =>
    cases hlook : tblLookup c.tag P with
    | none =>
      refine ⟨c.tag, hlook, ?_⟩
      rw [accumFrom_cons, parseChild_none P c hlook]
      rfl
    | some p =>
      obtain ⟨v, hv⟩ := hok c (List.mem_cons_self c cs) p hlook
      have hbad2 : ∃ x ∈ cs, tblLookup x.tag P = none := by
        obtain ⟨x, hx, hxn⟩ := hbad
        rcases List.mem_cons.mp hx with rfl | hx2
        · rw [hlook] at hxn; cases hxn
        · exact ⟨x, hx2, hxn⟩
      obtain ⟨t, ht, hrun⟩ := ih (pushVal c.tag v st)
        (fun x hx q hq => hok x (List.mem_cons_of_mem c hx) q hq) hbad2
      refine ⟨t, ht, ?_⟩
      rw [accumFrom_cons, parseChild_some P c p hlook, hv]
      exact hrun

/-! ## Well-formedness and round trips of the component types

`wf*` singles out the records whose serialization the parser maps back to
the very same record: optional text fields are either absent or nonempty
(a present-but-empty string would be skipped by the truthiness guard in
`to_xml`), URLs pass the validator, and the nested records are `wf`
themselves.  These conditions hold for every record parsed from a document
in the tool's own output format. -/

/-- An optional text field that serializes faithfully: absent, or nonempty. -/
def wfOptText (o : Option String) : Bool :=
  match o with
  | none => true
  | some s => s != ""

def wfBegrip (g : BegripGegevens) : Bool := wfOptText g.begripCode

def wfTermijn (g : TermijnGegevens) : Bool :=
  (match g.termijnTriggerStartLooptijd with
   | none => true
   | some b => wfBegrip b) &&
  wfOptText g.termijnStartdatumLooptijd &&
  wfOptText g.termijnLooptijd &&
  wfOptText g.termijnEinddatum

def wfChecksum (g : ChecksumGegevens) : Bool := wfBegrip g.checksumAlgoritme

def wfBeperking (g : BeperkingGebruikGegevens) : Bool :=
  wfBegrip g.beperkingGebruikType &&
  wfOptText g.beperkingGebruikNadereBeschrijving &&
  (match g.beperkingGebruikTermijn with
   | none => true
   | some t => wfTermijn t)

def wfDekking (g : DekkingInTijdGegevens) : Bool :=
  wfBegrip g.dekkingInTijdType && wfOptText g.dekkingInTijdEinddatum

def wfEvent (g : EventGegevens) : Bool :=
  wfBegrip g.eventType && wfOptText g.eventTijd && wfOptText g.eventResultaat

def wfRaadpleeg (g : RaadpleeglocatieGegevens) : Bool :=
  match g.raadpleeglocatieOnline with
  | none => true
  | some u => (u != "") && validatorsUrl u

def wfBetrokkene (g : BetrokkeneGegevens) : Bool := wfBegrip g.betrokkeneTypeRelatie

theorem parse_identificatie_to_xml (g : IdentificatieGegevens) (root : String) :
    parse_identificatie (g.to_xml root) = .ok g := rfl

theorem parse_verwijzing_to_xml (g : VerwijzingGegevens) (root : String) :
    parse_verwijzing (g.to_xml root) = .ok g := by
  cases h : g.verwijzingIdentificatie with
  | none =>
    simp only [VerwijzingGegevens.to_xml, h, parse_verwijzing]
    cases g
    simp_all
  | some i =>
    simp only [VerwijzingGegevens.to_xml, h, parse_verwijzing]
    cases g
    simp_all [parse_identificatie, IdentificatieGegevens.to_xml, Except.map]

theorem parse_begrip_to_xml (g : BegripGegevens) (root : String)
    (hwf : wfBegrip g = true) : parse_begrip (g.to_xml root) = .ok g := by
  cases g with
  | mk label lijst code =>
    rw [wfBegrip] at hwf
    cases code with
    | none =>
      simp [BegripGegevens.to_xml, parse_begrip, elem_to_mdto, begripTable,
        accumFrom_cons, parseChild, tblLookup, leaf, node, pyTruthyStr,
        parse_text, parse_verwijzing_to_xml, accumFrom_nil, pushVal, initArgs,
        Except.bind, collapseArgs, collapse, mkBegripArgs, optTextOf, getArg,
        exText, reqOf, exVerw, Except.map, Bind.bind, Except.instMonad]
    | some s =>
      have hs : s ≠ "" := by simpa [wfOptText] using hwf
      simp [BegripGegevens.to_xml, parse_begrip, elem_to_mdto, begripTable,
        accumFrom_cons, parseChild, tblLookup, leaf, node, pyTruthyStr, hs,
        parse_text, parse_verwijzing_to_xml, accumFrom_nil, pushVal, initArgs,
        Except.bind, collapseArgs, collapse, mkBegripArgs, optTextOf, getArg,
        exText, reqOf, exVerw, Except.map, Bind.bind, Except.instMonad]

theorem parse_termijn_to_xml (g : TermijnGegevens) (root : String)
    (hwf : wfTermijn g = true) : parse_termijn (g.to_xml root) = .ok g := by
  obtain ⟨trigger, start, looptijd, eind⟩ := g
  rw [wfTermijn] at hwf
  simp only [Bool.and_eq_true] at hwf
  obtain ⟨⟨⟨htr, hst⟩, hlo⟩, hei⟩ := hwf
  cases trigger <;> cases start <;> cases looptijd <;> cases eind <;>
    simp_all [TermijnGegevens.to_xml, parse_termijn, elem_to_mdto, termijnTable,
      accumFrom_cons, parseChild, tblLookup, leaf, node, pyTruthyStr,
      parse_text, parse_begrip_to_xml, accumFrom_nil, pushVal, initArgs,
      Except.bind, collapseArgs, collapse, mkTermijnArgs, optTextOf, optOf,
      getArg, exText, exBegrip, Except.map, Bind.bind, Except.instMonad,
      wfOptText]

theorem parse_checksum_to_xml (g : ChecksumGegevens)
    (hwf : wfChecksum g = true) : parse_checksum g.to_xml = .ok g := by
  obtain ⟨alg, waarde, datum⟩ := g
  rw [wfChecksum] at hwf
  simp_all [ChecksumGegevens.to_xml, parse_checksum, elem_to_mdto, checksumTable,
    accumFrom_cons, parseChild, tblLookup, leaf, node,
    parse_text, parse_begrip_to_xml, accumFrom_nil, pushVal, initArgs,
    Except.bind, collapseArgs, collapse, mkChecksumArgs, optTextOf, reqOf,
    getArg, exText, exBegrip, Except.map, Bind.bind, Except.instMonad]

theorem parse_beperking_to_xml (g : BeperkingGebruikGegevens)
    (hwf : wfBeperking g = true) : parse_beperking g.to_xml = .ok g := by
  obtain ⟨ty, nadere, doc, termijn⟩ := g
  rw [wfBeperking] at hwf
  simp only [Bool.and_eq_true] at hwf
  obtain ⟨⟨hty, hna⟩, hte⟩ := hwf
  cases nadere <;> cases doc <;> cases termijn <;>
    simp_all [BeperkingGebruikGegevens.to_xml, parse_beperking, elem_to_mdto,
      beperkingTable, accumFrom_cons, parseChild, tblLookup, leaf, node,
      pyTruthyStr, parse_text, parse_begrip_to_xml, parse_verwijzing_to_xml,
      parse_termijn_to_xml, accumFrom_nil, pushVal, initArgs,
      Except.bind, collapseArgs, collapse, mkBeperkingArgs, optTextOf, optOf,
      reqOf, getArg, exText, exBegrip, exVerw, exTermijn, Except.map,
      Bind.bind, Except.instMonad, wfOptText]

theorem parse_dekking_to_xml (g : DekkingInTijdGegevens)
    (hwf : wfDekking g = true) : parse_dekking_in_tijd g.to_xml = .ok g := by
  obtain ⟨ty, beginD, eindD⟩ := g
  rw [wfDekking] at hwf
  simp only [Bool.and_eq_true] at hwf
  obtain ⟨hty, hei⟩ := hwf
  cases eindD <;>
    simp_all [DekkingInTijdGegevens.to_xml, parse_dekking_in_tijd, elem_to_mdto,
      dekkingTable, accumFrom_cons, parseChild, tblLookup, leaf, node,
      pyTruthyStr, parse_text, parse_begrip_to_xml, accumFrom_nil, pushVal,
      initArgs, Except.bind, collapseArgs, collapse, mkDekkingArgs, optTextOf,
      reqOf, getArg, exText, exBegrip, Except.map, Bind.bind,
      Except.instMonad, wfOptText]

theorem parse_event_to_xml (g : EventGegevens)
    (hwf : wfEvent g = true) : parse_event g.to_xml = .ok g := by
  obtain ⟨ty, tijd, actor, resultaat⟩ := g
  rw [wfEvent] at hwf
  simp only [Bool.and_eq_true] at hwf
  obtain ⟨⟨hty, hti⟩, hre⟩ := hwf
  cases tijd <;> cases actor <;> cases resultaat <;>
    simp_all [EventGegevens.to_xml, parse_event, elem_to_mdto, eventTable,
      accumFrom_cons, parseChild, tblLookup, leaf, node, pyTruthyStr,
      parse_text, parse_begrip_to_xml, parse_verwijzing_to_xml, accumFrom_nil,
      pushVal, initArgs, Except.bind, collapseArgs, collapse, mkEventArgs,
      optTextOf, optOf, reqOf, getArg, exText, exBegrip, exVerw, Except.map,
      Bind.bind, Except.instMonad, wfOptText]

theorem parse_raadpleeglocatie_to_xml (force : Bool) (g : RaadpleeglocatieGegevens)
    (hwf : wfRaadpleeg g = true) :
    parse_raadpleeglocatie force g.to_xml = .ok g := by
  obtain ⟨fysiek, online⟩ := g
  rw [wfRaadpleeg] at hwf
  cases fysiek <;> cases online <;>
    simp_all [RaadpleeglocatieGegevens.to_xml, parse_raadpleeglocatie,
      elem_to_mdto, raadpleeglocatieTable, accumFrom_cons, parseChild,
      tblLookup, leaf, node, pyTruthyStr, parse_text,
      parse_verwijzing_to_xml, accumFrom_nil, pushVal, initArgs, Except.bind,
      collapseArgs, collapse, mkRaadpleeglocatieArgs, mkRaadpleeglocatie,
      optTextOf, optOf, getArg, exText, exVerw, Except.map, Bind.bind,
      Except.instMonad]

theorem parse_gerelateerd_to_xml (g : GerelateerdInformatieobjectGegevens)
    (hwf : wfBegrip g.gerelateerdInformatieobjectTypeRelatie = true) :
    parse_gerelateerd_informatieobject g.to_xml = .ok g := by
  obtain ⟨verw, rel⟩ := g
  simp_all [GerelateerdInformatieobjectGegevens.to_xml,
    parse_gerelateerd_informatieobject, elem_to_mdto, gerelateerdTable,
    accumFrom_cons, parseChild, tblLookup, leaf, node,
    parse_begrip_to_xml, parse_verwijzing_to_xml, accumFrom_nil, pushVal,
    initArgs, Except.bind, collapseArgs, collapse, mkGerelateerdArgs, reqOf,
    getArg, exBegrip, exVerw, Except.map, Bind.bind, Except.instMonad]

theorem parse_betrokkene_to_xml (g : BetrokkeneGegevens)
    (hwf : wfBetrokkene g = true) : parse_betrokkene g.to_xml = .ok g := by
  obtain ⟨rel, actor⟩ := g
  rw [wfBetrokkene] at hwf
  simp_all [BetrokkeneGegevens.to_xml, parse_betrokkene, elem_to_mdto,
    betrokkeneTable, accumFrom_cons, parseChild, tblLookup, leaf, node,
    parse_begrip_to_xml, parse_verwijzing_to_xml, accumFrom_nil, pushVal,
    initArgs, Except.bind, collapseArgs, collapse, mkBetrokkeneArgs, reqOf,
    getArg, exBegrip, exVerw, Except.map, Bind.bind, Except.instMonad]

/-! ## Segment-wise evaluation of the accumulator -/

/-- Appending a whole batch of values to one field's accumulator. -/
def pushVals {β : Type} (f : String) (vs : List β) (st : List (String × List β)) :
    List (String × List β) :=
  st.map (fun q => (q.1, if q.1 = f then q.2 ++ vs else q.2))

@[simp] theorem pushVals_nil_vals {β : Type} (f : String)
    (st : List (String × List β)) : pushVals f [] st = st := by
  induction st with
  | nil => rfl
  | cons q st ih =>
    simp only [pushVals, List.map_cons] at ih ⊢
    rw [ih]
    cases q with
    | mk k l => by_cases hk : k = f <;> simp [hk]

theorem pushVals_pushVal {β : Type} (f : String) (v : β) (vs : List β)
    (st : List (String × List β)) :
    pushVals f vs (pushVal f v st) = pushVals f (v :: vs) st := by
  simp only [pushVals, pushVal, List.map_map]
  apply List.map_congr_left
  intro q _
  by_cases hk : q.1 = f <;> simp [hk]

theorem accumFrom_append {β : Type} (P : List (String × (Elem → Except PyErr β)))
    (xs ys : List Elem) (st : List (String × List β)) :
    accumFrom P (xs ++ ys) st =
      (accumFrom P xs st).bind (fun st2 => accumFrom P ys st2) := by
  induction xs generalizing st with
  | nil => rw [List.nil_append, accumFrom_nil]; rfl
  | cons c cs ih =>
    rw [List.cons_append, accumFrom_cons, accumFrom_cons]
    cases parseChild P c with
    | error e => rfl
    | ok v => exact ih (pushVal c.tag v st)

/-- A uniform segment (all elements share tag `t`, each parses to its packed
value) extends the accumulator of `t` by the packed values. -/
theorem accumFrom_segment {β γ : Type} (P : List (String × (Elem → Except PyErr β)))
    (t : String) (p : Elem → Except PyErr β) (ht : tblLookup t P = some p)
    (xs : List γ) (f : γ → Elem) (pack : γ → β)
    (htag : ∀ x, (f x).tag = t) (hp : ∀ x ∈ xs, p (f x) = .ok (pack x))
    (st : List (String × List β)) :
    accumFrom P (xs.map f) st = .ok (pushVals t (xs.map pack) st) := by
  induction xs generalizing st with
  | nil => simp [accumFrom_nil]
  | cons x xs ih =>
    rw [List.map_cons, accumFrom_cons]
    have hpc : parseChild P (f x) = .ok (pack x) := by
      rw [parseChild]
      rw [htag x, ht]
      exact hp x (List.mem_cons_self x xs)
    rw [hpc]
    show accumFrom P (xs.map f) (pushVal (f x).tag (pack x) st) = _
    rw [htag x, ih (fun y hy => hp y (List.mem_cons_of_mem x hy)),
      List.map_cons, ← pushVals_pushVal]

/-- Single-element segment. -/
theorem accumFrom_single {β : Type} (P : List (String × (Elem → Except PyErr β)))
    (t : String) (p : Elem → Except PyErr β) (ht : tblLookup t P = some p)
    (e : Elem) (v : β) (htag : e.tag = t) (hp : p e = .ok v)
    (st : List (String × List β)) :
    accumFrom P [e] st = .ok (pushVals t [v] st) := by
  rw [accumFrom_cons]
  have hpc : parseChild P e = .ok v := by
    rw [parseChild, htag, ht]; exact hp
  rw [hpc]
  show accumFrom P [] (pushVal e.tag v st) = _
  rw [htag, accumFrom_nil]
  rfl

/-! The parsed-value batches corresponding to the segment helpers. -/

def optVals {γ : Type} (pack : γ → PVal) : Option γ → List PVal
  | some x => [pack x]
  | none => []

def guardTextVals (o : Option String) : List PVal :=
  if pyTruthyStr o then [PVal.vText o] else []

def guardRepVals {γ : Type} (pack : γ → PVal) (o : Option (OneOrList γ)) : List PVal :=
  if pyTruthyObjs o then ((o.map OneOrList.toList).getD []).map pack else []

def trefwoordVals (o : Option (OneOrList (Option String))) : List PVal :=
  if pyTruthyStrs o then ((o.map OneOrList.toList).getD []).map PVal.vText else []

/-- Optional-field segment. -/
theorem accumFrom_optSeg {γ : Type} (P : List (String × (Elem → Except PyErr PVal)))
    (t : String) (p : Elem → Except PyErr PVal) (ht : tblLookup t P = some p)
    (o : Option γ) (f : γ → Elem) (pack : γ → PVal)
    (htag : ∀ x, (f x).tag = t) (hp : ∀ x, o = some x → p (f x) = .ok (pack x))
    (st : List (String × List PVal)) :
    accumFrom P (optElems f o) st = .ok (pushVals t (optVals pack o) st) := by
  cases o with
  | none => simp [optElems, optVals, accumFrom_nil]
  | some x =>
    rw [optElems, optVals]
    exact accumFrom_single P t p ht (f x) (pack x) (htag x) (hp x rfl) st

/-- Guarded-text segment. -/
theorem accumFrom_guardTextSeg (P : List (String × (Elem → Except PyErr PVal)))
    (t : String) (ht : tblLookup t P = some parse_text) (o : Option String)
    (st : List (String × List PVal)) :
    accumFrom P (guardTextElems t o) st = .ok (pushVals t (guardTextVals o) st) := by
  rw [guardTextElems, guardTextVals]
  by_cases hg : pyTruthyStr o = true
  · simp only [hg, if_true]
    exact accumFrom_single P t parse_text ht (leaf t o) (.vText o) (by simp) rfl st
  · simp only [Bool.not_eq_true] at hg
    simp [hg, accumFrom_nil]

/-- Guarded repeatable composite segment. -/
theorem accumFrom_guardRepSeg {γ : Type} (P : List (String × (Elem → Except PyErr PVal)))
    (t : String) (p : Elem → Except PyErr PVal) (ht : tblLookup t P = some p)
    (o : Option (OneOrList γ)) (f : γ → Elem) (pack : γ → PVal)
    (htag : ∀ x, (f x).tag = t)
    (hp : ∀ x ∈ (o.map OneOrList.toList).getD [], p (f x) = .ok (pack x))
    (st : List (String × List PVal)) :
    accumFrom P (guardRepElems f o) st = .ok (pushVals t (guardRepVals pack o) st) := by
  rw [guardRepElems, guardRepVals]
  by_cases hg : pyTruthyObjs o = true
  · simp only [hg, if_true]
    exact accumFrom_segment P t p ht _ f pack htag hp st
  · simp only [Bool.not_eq_true] at hg
    simp [hg, accumFrom_nil]

/-- `trefwoord` segment. -/
theorem accumFrom_trefwoordSeg (P : List (String × (Elem → Except PyErr PVal)))
    (ht : tblLookup "trefwoord" P = some parse_text)
    (o : Option (OneOrList (Option String))) (st : List (String × List PVal)) :
    accumFrom P (trefwoordElems o) st =
      .ok (pushVals "trefwoord" (trefwoordVals o) st) := by
  rw [trefwoordElems, trefwoordVals]
  by_cases hg : pyTruthyStrs o = true
  · simp only [hg, if_true]
    exact accumFrom_segment P "trefwoord" parse_text ht _
      (fun t => leaf "trefwoord" t) PVal.vText
      (fun x => by simp) (fun x _ => rfl) st
  · simp only [Bool.not_eq_true] at hg
    simp [hg, accumFrom_nil]

/-! ## Canonical shape produced by a parse of serialized output -/

/-- What the zero/one/many collapse does to a repeatable field after a
serialize-then-parse round trip: a one-element list comes back as the bare
value, anything else keeps its list.  The serialized form is unchanged
(`canonRep_toList`). -/
def canonRep {γ : Type} (x : OneOrList γ) : OneOrList γ :=
  match x.toList with
  | [v] => .one v
  | l => .list l

@[simp] theorem canonRep_toList {γ : Type} (x : OneOrList γ) :
    (canonRep x).toList = x.toList := by
  cases x with
  | one a => rfl
  | list l =>
    rw [canonRep]
    match l with
    | [] => rfl
    | [v] => rfl
    | v :: w :: rest => rfl

@[simp] theorem canonRep_one {γ : Type} (a : γ) :
    canonRep (OneOrList.one a) = .one a := rfl

/-! Evaluation of the per-field converters on the collapse of the value
batches that the serializer emits. -/

theorem asOpt_eval {γ : Type} (ex : PVal → Except PyErr γ) (pack : γ → PVal)
    (hex : ∀ x, ex (pack x) = .ok x) (o : Option γ) :
    asOpt ex (collapse (optVals pack o)) = .ok o := by
  cases o with
  | none => rfl
  | some b => simp [optVals, collapse, asOpt, hex, Except.map]

theorem asReq_eval {γ : Type} (ex : PVal → Except PyErr γ) (pack : γ → PVal)
    (hex : ∀ x, ex (pack x) = .ok x) (v : γ) :
    asReq ex (collapse [pack v]) = .ok v := by
  simp [collapse, asReq, hex]

theorem asOptText_eval (o : Option String) :
    asOptText (collapse (guardTextVals o)) =
      .ok (if pyTruthyStr o then o else none) := by
  rw [guardTextVals]
  by_cases h : pyTruthyStr o = true
  · simp [h, collapse, asOptText, exText]
  · simp only [Bool.not_eq_true] at h
    simp [h, collapse, asOptText]

theorem asOptText_eval_wf (o : Option String) (hwf : wfOptText o = true) :
    asOptText (collapse (guardTextVals o)) = .ok o := by
  rw [asOptText_eval]
  cases o with
  | none => simp [pyTruthyStr]
  | some s =>
    have hs : s ≠ "" := by simpa [wfOptText] using hwf
    simp [pyTruthyStr, hs]

theorem mapM_ex_pack {γ : Type} (ex : PVal → Except PyErr γ) (pack : γ → PVal)
    (hex : ∀ x, ex (pack x) = .ok x) (xs : List γ) :
    (xs.map pack).mapM ex = .ok xs := by
  induction xs with
  | nil => rfl
  | cons x xs ih =>
    rw [List.map_cons, List.mapM_cons, hex x, ih]
    rfl

theorem asReqRep_eval {γ : Type} (ex : PVal → Except PyErr γ) (pack : γ → PVal)
    (hex : ∀ x, ex (pack x) = .ok x) (x : OneOrList γ)
    (hne : x.toList ≠ []) :
    asReqRep ex (collapse (x.toList.map pack)) = .ok (canonRep x) := by
  rw [canonRep]
  match hl : x.toList with
  | [] => exact absurd hl hne
  | [v] => simp [collapse, asReqRep, hex, Except.map]
  | v :: w :: rest =>
    simp only [List.map_cons]
    rw [show collapse (pack v :: pack w :: List.map pack rest)
          = Collapsed.multiple (pack v :: pack w :: List.map pack rest) from rfl]
    simp only [asReqRep]
    rw [show (pack v :: pack w :: List.map pack rest) = (v :: w :: rest).map pack by simp,
      mapM_ex_pack ex pack hex]
    rfl

theorem asRep_eval {γ : Type} (ex : PVal → Except PyErr γ) (pack : γ → PVal)
    (hex : ∀ x, ex (pack x) = .ok x) (o : Option (OneOrList γ))
    (hne : ∀ x, o = some x → x.toList ≠ []) :
    asRep ex (collapse (guardRepVals pack o)) = .ok (o.map canonRep) := by
  rw [guardRepVals]
  cases o with
  | none => rfl
  | some x =>
    have hx : x.toList ≠ [] := hne x rfl
    have hguard : pyTruthyObjs (some x) = true := by
      cases x with
      | one a => rfl
      | list l =>
        simp only [OneOrList.toList_list] at hx
        simp [pyTruthyObjs, List.isEmpty_iff, hx]
    rw [hguard, if_pos rfl]
    show asRep ex (collapse (x.toList.map pack)) = .ok (some (canonRep x))
    rw [canonRep]
    match hl : x.toList with
    | [] => exact absurd hl hx
    | [v] => simp [collapse, asRep, hex, Except.map]
    | v :: w :: rest =>
      simp only [List.map_cons]
      rw [show collapse (pack v :: pack w :: List.map pack rest)
            = Collapsed.multiple (pack v :: pack w :: List.map pack rest) from rfl]
      simp only [asRep]
      rw [show (pack v :: pack w :: List.map pack rest) = (v :: w :: rest).map pack by simp,
        mapM_ex_pack ex pack hex]
      rfl

theorem asRepText_eval (o : Option (OneOrList (Option String)))
    (hne : ∀ x, o = some x → x.toList ≠ [])
    (hitems : ∀ x, o = some x → ∀ s ∈ x.toList, pyTruthyStr s = true) :
    asRepText (collapse (trefwoordVals o)) = .ok (o.map canonRep) := by
  rw [trefwoordVals]
  cases o with
  | none => rfl
  | some x =>
    have hx : x.toList ≠ [] := hne x rfl
    have hguard : pyTruthyStrs (some x) = true := by
      cases x with
      | one a => exact hitems (.one a) rfl a (by simp)
      | list l =>
        simp only [OneOrList.toList_list] at hx
        simp [pyTruthyStrs, List.isEmpty_iff, hx]
    rw [hguard, if_pos rfl]
    show asRepText (collapse (x.toList.map PVal.vText)) = .ok (some (canonRep x))
    rw [canonRep]
    match hl : x.toList with
    | [] => exact absurd hl hx
    | [v] => simp [collapse, asRepText, exText, Except.map]
    | v :: w :: rest =>
      simp only [List.map_cons]
      rw [show collapse (PVal.vText v :: PVal.vText w :: List.map PVal.vText rest)
            = Collapsed.multiple
                (PVal.vText v :: PVal.vText w :: List.map PVal.vText rest) from rfl]
      simp only [asRepText]
      rw [show (PVal.vText v :: PVal.vText w :: List.map PVal.vText rest)
            = (v :: w :: rest).map PVal.vText by simp,
        mapM_ex_pack exText PVal.vText (fun _ => rfl)]
      rfl

/-! ## Round trip of `Bestand` -/

def wfBestand (b : Bestand) : Bool :=
  (match b.naam with
   | some s => decide (s.length ≤ MAX_NAAM_LENGTH)
   | none => false) &&
  !b.identificatie.toList.isEmpty &&
  (match b.checksum with
   | .one c => wfChecksum c
   | .list _ => false) &&
  (match b.bestandsformaat with
   | none => true
   | some f => wfBegrip f) &&
  (match b.URLBestand with
   | none => true
   | some u => (u != "") && validatorsUrl u)

theorem parse_int_leaf (t : String) (n : Int) :
    parse_int (leaf t (some (pyStrOfInt n))) = .ok n := by
  rw [parse_int]
  show (match pyInt (pyStrOfInt n) with
        | some n => Except.ok n
        | none => Except.error PyErr.valueErrorBadInt) = Except.ok n
  rw [pyInt_pyStrOfInt]

theorem asOptText_single_vText (t : Option String) :
    asOptText (collapse [PVal.vText t]) = .ok t := rfl

theorem asReq_single_vInt (n : Int) :
    asReq exInt (collapse [PVal.vInt n]) = .ok n := rfl

theorem asReqRep_single_vChecksum (c : ChecksumGegevens) :
    asReqRep exChecksum (collapse [PVal.vChecksum c]) = .ok (.one c) := rfl

theorem mkBestand_wf (force quiet : Bool) (s : String)
    (hslen : s.length ≤ MAX_NAAM_LENGTH) (ident : OneOrList IdentificatieGegevens)
    (omvang : Int) (fmt : Option BegripGegevens) (chk : OneOrList ChecksumGegevens)
    (repr0 : Option VerwijzingGegevens) (url : Option String)
    (hurl : (match url with
             | none => true
             | some u => (u != "") && validatorsUrl u) = true) :
    mkBestand force quiet (some s) ident omvang fmt chk repr0 url =
      .ok { naam := some s, identificatie := ident, omvang := omvang,
            bestandsformaat := fmt, checksum := chk,
            isRepresentatieVan := repr0, URLBestand := url } := by
  have hlen : ¬(s.length > MAX_NAAM_LENGTH) := by omega
  cases url with
  | none =>
    simp [mkBestand, hlen]
    rfl
  | some u =>
    simp only [Bool.and_eq_true] at hurl
    simp [mkBestand, hlen, hurl.2]
    rfl

theorem parse_bestand_to_xml (force quiet : Bool) (b : Bestand)
    (hwf : wfBestand b = true) (ks : List Elem) (hks : b.kids = .ok ks) :
    parse_bestand force quiet ks =
      .ok { b with identificatie := canonRep b.identificatie } := by
  obtain ⟨naam, ident, omvang, fmt, chk, repr0, url⟩ := b
  rw [wfBestand] at hwf
  simp only [Bool.and_eq_true] at hwf
  obtain ⟨⟨⟨⟨hnaam, hident⟩, hchk⟩, hfmt⟩, hurl⟩ := hwf
  obtain ⟨c, hc, hwfc⟩ : ∃ c, chk = .one c ∧ wfChecksum c = true := by
    cases hcs : chk with
    | one c => rw [hcs] at hchk; exact ⟨c, rfl, hchk⟩
    | list l => rw [hcs] at hchk; cases hchk
  subst hc
  obtain ⟨s, hs, hslen⟩ : ∃ s, naam = some s ∧ s.length ≤ MAX_NAAM_LENGTH := by
    cases hn : naam with
    | some s => rw [hn] at hnaam; exact ⟨s, rfl, by simpa using hnaam⟩
    | none => rw [hn] at hnaam; cases hnaam
  subst hs
  have hidentne : ident.toList ≠ [] := by
    simpa [List.isEmpty_iff] using hident
  rw [Bestand.kids.eq_def] at hks
  simp only [] at hks
  injection hks with hkseq
  subst hkseq
  have h1 : ∀ st, accumFrom bestandTable
      (ident.toList.map (fun i => i.to_xml "identificatie")) st =
      .ok (pushVals "identificatie" (ident.toList.map PVal.vIdent) st) := by
    intro st
    exact accumFrom_segment bestandTable "identificatie" _ rfl _ _ _
      (fun x => by simp)
      (fun x _ => by rw [parse_identificatie_to_xml]; rfl) st
  have h2 : ∀ st, accumFrom bestandTable [leaf "naam" (some s)] st =
      .ok (pushVals "naam" [PVal.vText (some s)] st) := by
    intro st
    exact accumFrom_single bestandTable "naam" _ rfl _ _ (by simp) rfl st
  have h3 : ∀ st, accumFrom bestandTable
      [leaf "omvang" (some (pyStrOfInt omvang))] st =
      .ok (pushVals "omvang" [PVal.vInt omvang] st) := by
    intro st
    exact accumFrom_single bestandTable "omvang" _ rfl _ _ (by simp)
      (by rw [parse_int_leaf]; rfl) st
  have h4 : ∀ st, accumFrom bestandTable
      (optElems (fun f => f.to_xml "bestandsformaat") fmt) st =
      .ok (pushVals "bestandsformaat" (optVals PVal.vBegrip fmt) st) := by
    intro st
    refine accumFrom_optSeg bestandTable "bestandsformaat" _ rfl fmt
      (fun f => f.to_xml "bestandsformaat") PVal.vBegrip (fun x => by simp)
      (fun x hx => ?_) st
    rw [hx] at hfmt
    rw [parse_begrip_to_xml x _ hfmt]
    rfl
  have h5 : ∀ st, accumFrom bestandTable [c.to_xml] st =
      .ok (pushVals "checksum" [PVal.vChecksum c] st) := by
    intro st
    exact accumFrom_single bestandTable "checksum" _ rfl _ _ (by simp)
      (by rw [parse_checksum_to_xml c hwfc]; rfl) st
  have h6 : ∀ st, accumFrom bestandTable (guardTextElems "URLBestand" url) st =
      .ok (pushVals "URLBestand" (guardTextVals url) st) :=
    fun st => accumFrom_guardTextSeg bestandTable "URLBestand" rfl url st
  have h7 : ∀ st, accumFrom bestandTable
      (optElems (fun v => v.to_xml "isRepresentatieVan") repr0) st =
      .ok (pushVals "isRepresentatieVan" (optVals PVal.vVerw repr0) st) := by
    intro st
    exact accumFrom_optSeg bestandTable "isRepresentatieVan" _ rfl repr0
      (fun v => v.to_xml "isRepresentatieVan") PVal.vVerw (fun x => by simp)
      (fun x _ => by rw [parse_verwijzing_to_xml]; rfl) st
  have hwfurl : wfOptText url = true := by
    cases hu2 : url with
    | none => rfl
    | some u =>
      rw [hu2] at hurl
      simp only [Bool.and_eq_true] at hurl
      simpa [wfOptText] using hurl.1
  rw [parse_bestand, elem_to_mdto]
  simp only [accumFrom_append, h1, h2, h3, h4, h5, h6, h7, Except.bind,
    Bind.bind, Except.instMonad]
  simp [pushVals, initArgs, bestandTable]
  simp only [collapseArgs, List.map_cons, List.map_nil, mkBestandArgs]
  simp only [asOptText_single_vText, asReq_single_vInt, asReqRep_single_vChecksum,
    asReqRep_eval exIdent PVal.vIdent (fun _ => rfl) ident hidentne,
    asOpt_eval exBegrip PVal.vBegrip (fun _ => rfl) fmt,
    asOptText_eval_wf url hwfurl,
    asOpt_eval exVerw PVal.vVerw (fun _ => rfl) repr0,
    Except.bind, Bind.bind, Except.instMonad]
  rw [mkBestand_wf force quiet s hslen _ omvang fmt _ repr0 url hurl]


/-! ## Round trip of `Informatieobject` -/

def optAll {γ : Type} (p : γ → Bool) : Option γ → Bool
  | none => true
  | some x => p x

def wfInformatieobject (io : Informatieobject) : Bool :=
  io.gerelateerdInformatieobject.isNone &&
  (match io.archiefvormer with
   | .one _ => true
   | .list _ => false) &&
  !io.identificatie.toList.isEmpty &&
  (!io.beperkingGebruik.toList.isEmpty &&
    io.beperkingGebruik.toList.all wfBeperking) &&
  wfBegrip io.waardering &&
  optAll wfBegrip io.aggregatieniveau &&
  optAll wfBegrip io.classificatie &&
  (match io.trefwoord with
   | none => true
   | some x => !x.toList.isEmpty && x.toList.all (fun s => pyTruthyStr s)) &&
  wfOptText io.omschrijving &&
  optAll wfRaadpleeg io.raadpleeglocatie &&
  optAll wfDekking io.dekkingInTijd &&
  wfOptText io.taal &&
  (match io.event with
   | none => true
   | some x => !x.toList.isEmpty && x.toList.all wfEvent) &&
  optAll wfTermijn io.bewaartermijn &&
  optAll wfBegrip io.informatiecategorie &&
  (match io.bevatOnderdeel with
   | none => true
   | some x => !x.toList.isEmpty) &&
  (match io.aanvullendeMetagegevens with
   | none => true
   | some x => !x.toList.isEmpty) &&
  (match io.betrokkene with
   | none => true
   | some x => !x.toList.isEmpty && x.toList.all wfBetrokkene)

/-- The record produced by parsing the serialization of a well-formed
`Informatieobject`: every repeatable field is reshaped by the zero/one/many
collapse, everything else is restored verbatim. -/
def canonInformatieobject (io : Informatieobject) : Informatieobject :=
  { io with
    identificatie := canonRep io.identificatie
    trefwoord := io.trefwoord.map canonRep
    event := io.event.map canonRep
    bevatOnderdeel := io.bevatOnderdeel.map canonRep
    aanvullendeMetagegevens := io.aanvullendeMetagegevens.map canonRep
    betrokkene := io.betrokkene.map canonRep
    beperkingGebruik := canonRep io.beperkingGebruik }

theorem asReq_single_vBegrip (b : BegripGegevens) :
    asReq exBegrip (collapse [PVal.vBegrip b]) = .ok b := rfl

theorem asReqRep_single_vVerw (v : VerwijzingGegevens) :
    asReqRep exVerw (collapse [PVal.vVerw v]) = .ok (.one v) := rfl

set_option maxHeartbeats 2000000 in
theorem mkInformatieobjectArgs_keys (a1 a2 a3 a4 a5 a6 a7 a8 a9 a10 a11 a12
    a13 a14 a15 a16 a17 a18 a19 a20 a21 a22 a23 : Collapsed PVal) :
    mkInformatieobjectArgs
      [("naam", a1), ("identificatie", a2), ("aggregatieniveau", a3),
       ("classificatie", a4), ("trefwoord", a5), ("omschrijving", a6),
       ("raadpleeglocatie", a7), ("dekkingInTijd", a8), ("dekkingInRuimte", a9),
       ("taal", a10), ("event", a11), ("waardering", a12), ("bewaartermijn", a13),
       ("informatiecategorie", a14), ("isOnderdeelVan", a15),
       ("bevatOnderdeel", a16), ("heeftRepresentatie", a17),
       ("aanvullendeMetagegevens", a18), ("gerelateerdInformatieobject", a19),
       ("archiefvormer", a20), ("betrokkene", a21), ("activiteit", a22),
       ("beperkingGebruik", a23)] = (do
    let naam ← asOptText a1
    let identificatie ← asReqRep exIdent a2
    let aggregatieniveau ← asOpt exBegrip a3
    let classificatie ← asOpt exBegrip a4
    let trefwoord ← asRepText a5
    let omschrijving ← asOptText a6
    let raadpleeglocatie ← asOpt exRaadpleeg a7
    let dekkingInTijd ← asOpt exDekking a8
    let dekkingInRuimte ← asOpt exVerw a9
    let taal ← asOptText a10
    let event ← asRep exEvent a11
    let waardering ← asReq exBegrip a12
    let bewaartermijn ← asOpt exTermijn a13
    let informatiecategorie ← asOpt exBegrip a14
    let isOnderdeelVan ← asOpt exVerw a15
    let bevatOnderdeel ← asRep exVerw a16
    let heeftRepresentatie ← asOpt exVerw a17
    let aanvullendeMetagegevens ← asRep exVerw a18
    let gerelateerdInformatieobject ← asOpt exGerelateerd a19
    let archiefvormer ← asReqRep exVerw a20
    let betrokkene ← asRep exBetrokkene a21
    let activiteit ← asOpt exVerw a22
    let beperkingGebruik ← asReqRep exBeperking a23
    .ok { naam, identificatie, archiefvormer, beperkingGebruik, waardering,
          aggregatieniveau, classificatie, trefwoord, omschrijving,
          raadpleeglocatie, dekkingInTijd, dekkingInRuimte, taal, event,
          bewaartermijn, informatiecategorie, bevatOnderdeel, isOnderdeelVan,
          heeftRepresentatie, aanvullendeMetagegevens,
          gerelateerdInformatieobject, betrokkene, activiteit }) := rfl

theorem parse_informatieobject_to_xml (force : Bool) (io : Informatieobject)
    (hwf : wfInformatieobject io = true) (ks : List Elem)
    (hks : io.kids = .ok ks) :
    parse_informatieobject force ks = .ok (canonInformatieobject io) := by
  obtain ⟨naam, ident, arch, bep, waard, aggr, klass, tw, omsch, raad, dek,
    ruimte, taal, ev, bew, infc, bevat, isOnd, heeftR, aanv, ger, betr, act⟩ := io
  rw [wfInformatieobject] at hwf
  simp only [Bool.and_eq_true] at hwf
  obtain ⟨⟨⟨⟨⟨⟨⟨⟨⟨⟨⟨⟨⟨⟨⟨⟨⟨hger, harch⟩, hident⟩, hbep⟩, hwaard⟩, haggr⟩,
    hklass⟩, htw⟩, homsch⟩, hraad⟩, hdek⟩, htaal⟩, hev⟩, hbew⟩, hinfc⟩,
    hbevat⟩, haanv⟩, hbetr⟩ := hwf
  have hgernone : ger = none := by
    cases hg : ger with
    | none => rfl
    | some g => rw [hg] at hger; cases hger
  subst hgernone
  obtain ⟨av, hav⟩ : ∃ av, arch = .one av := by
    cases ha : arch with
    | one v => exact ⟨v, rfl⟩
    | list l => rw [ha] at harch; cases harch
  subst hav
  have hidentne : ident.toList ≠ [] := by
    simpa [List.isEmpty_iff] using hident
  have hbepne : bep.toList ≠ [] := by
    simpa [List.isEmpty_iff] using hbep.1
  have hbepwf : ∀ x ∈ bep.toList, wfBeperking x = true := by
    intro x hx
    exact List.all_eq_true.mp hbep.2 x hx
  rw [Informatieobject.kids.eq_def] at hks
  simp only [] at hks
  rw [Except.ok.injEq] at hks
  subst hks
  -- per-segment accumulator effects, in emission order
  have s01 : ∀ st, accumFrom (informatieobjectTable force)
      (ident.toList.map (fun i => i.to_xml "identificatie")) st =
      .ok (pushVals "identificatie" (ident.toList.map PVal.vIdent) st) :=
    fun st => accumFrom_segment (informatieobjectTable force) "identificatie" _ rfl _ _ _ (fun x => by simp)
      (fun x _ => by rw [parse_identificatie_to_xml]; rfl) st
  have s02 : ∀ st, accumFrom (informatieobjectTable force) [leaf "naam" naam] st =
      .ok (pushVals "naam" [PVal.vText naam] st) :=
    fun st => accumFrom_single (informatieobjectTable force) "naam" _ rfl _ _ (by simp) rfl st
  have s03 : ∀ st, accumFrom (informatieobjectTable force)
      (optElems (fun b => b.to_xml "aggregatieniveau") aggr) st =
      .ok (pushVals "aggregatieniveau" (optVals PVal.vBegrip aggr) st) := by
    intro st
    refine accumFrom_optSeg (informatieobjectTable force) "aggregatieniveau" _ rfl aggr _ PVal.vBegrip
      (fun x => by simp) (fun x hx => ?_) st
    rw [hx] at haggr
    rw [parse_begrip_to_xml x _ haggr]
    rfl
  have s04 : ∀ st, accumFrom (informatieobjectTable force)
      (optElems (fun b => b.to_xml "classificatie") klass) st =
      .ok (pushVals "classificatie" (optVals PVal.vBegrip klass) st) := by
    intro st
    refine accumFrom_optSeg (informatieobjectTable force) "classificatie" _ rfl klass _ PVal.vBegrip
      (fun x => by simp) (fun x hx => ?_) st
    rw [hx] at hklass
    rw [parse_begrip_to_xml x _ hklass]
    rfl
  have s05 : ∀ st, accumFrom (informatieobjectTable force) (trefwoordElems tw) st =
      .ok (pushVals "trefwoord" (trefwoordVals tw) st) :=
    fun st => accumFrom_trefwoordSeg (informatieobjectTable force) rfl tw st
  have s06 : ∀ st, accumFrom (informatieobjectTable force)
      (guardTextElems "omschrijving" omsch) st =
      .ok (pushVals "omschrijving" (guardTextVals omsch) st) :=
    fun st => accumFrom_guardTextSeg (informatieobjectTable force) "omschrijving" rfl omsch st
  have s07 : ∀ st, accumFrom (informatieobjectTable force)
      (optElems RaadpleeglocatieGegevens.to_xml raad) st =
      .ok (pushVals "raadpleeglocatie" (optVals PVal.vRaadpleeg raad) st) := by
    intro st
    refine accumFrom_optSeg (informatieobjectTable force) "raadpleeglocatie" _ rfl raad _ PVal.vRaadpleeg
      (fun x => by simp) (fun x hx => ?_) st
    rw [hx] at hraad
    rw [parse_raadpleeglocatie_to_xml force x hraad]
    rfl
  have s08 : ∀ st, accumFrom (informatieobjectTable force)
      (optElems DekkingInTijdGegevens.to_xml dek) st =
      .ok (pushVals "dekkingInTijd" (optVals PVal.vDekking dek) st) := by
    intro st
    refine accumFrom_optSeg (informatieobjectTable force) "dekkingInTijd" _ rfl dek _ PVal.vDekking
      (fun x => by simp) (fun x hx => ?_) st
    rw [hx] at hdek
    rw [parse_dekking_to_xml x hdek]
    rfl
  have s09 : ∀ st, accumFrom (informatieobjectTable force)
      (optElems (fun v => v.to_xml "dekkingInRuimte") ruimte) st =
      .ok (pushVals "dekkingInRuimte" (optVals PVal.vVerw ruimte) st) :=
    fun st => accumFrom_optSeg (informatieobjectTable force) "dekkingInRuimte" _ rfl ruimte _ PVal.vVerw
      (fun x => by simp) (fun x _ => by rw [parse_verwijzing_to_xml]; rfl) st
  have s10 : ∀ st, accumFrom (informatieobjectTable force)
      (guardTextElems "taal" taal) st =
      .ok (pushVals "taal" (guardTextVals taal) st) :=
    fun st => accumFrom_guardTextSeg (informatieobjectTable force) "taal" rfl taal st
  have s11 : ∀ st, accumFrom (informatieobjectTable force)
      (guardRepElems EventGegevens.to_xml ev) st =
      .ok (pushVals "event" (guardRepVals PVal.vEvent ev) st) := by
    intro st
    refine accumFrom_guardRepSeg (informatieobjectTable force) "event" _ rfl ev _ PVal.vEvent
      (fun x => by simp) (fun x hx => ?_) st
    have hwfe : wfEvent x = true := by
      cases he : ev with
      | none => rw [he] at hx; cases hx
      | some l =>
        rw [he] at hev hx
        simp only [Bool.and_eq_true] at hev
        exact List.all_eq_true.mp hev.2 x hx
    rw [parse_event_to_xml x hwfe]
    rfl
  have s12 : ∀ st, accumFrom (informatieobjectTable force)
      [waard.to_xml "waardering"] st =
      .ok (pushVals "waardering" [PVal.vBegrip waard] st) :=
    fun st => accumFrom_single (informatieobjectTable force) "waardering" _ rfl _ _ (by simp)
      (by rw [parse_begrip_to_xml waard _ hwaard]; rfl) st
  have s13 : ∀ st, accumFrom (informatieobjectTable force)
      (optElems (fun t => t.to_xml "bewaartermijn") bew) st =
      .ok (pushVals "bewaartermijn" (optVals PVal.vTermijn bew) st) := by
    intro st
    refine accumFrom_optSeg (informatieobjectTable force) "bewaartermijn" _ rfl bew _ PVal.vTermijn
      (fun x => by simp) (fun x hx => ?_) st
    rw [hx] at hbew
    rw [parse_termijn_to_xml x _ hbew]
    rfl
  have s14 : ∀ st, accumFrom (informatieobjectTable force)
      (optElems (fun b => b.to_xml "informatiecategorie") infc) st =
      .ok (pushVals "informatiecategorie" (optVals PVal.vBegrip infc) st) := by
    intro st
    refine accumFrom_optSeg (informatieobjectTable force) "informatiecategorie" _ rfl infc _ PVal.vBegrip
      (fun x => by simp) (fun x hx => ?_) st
    rw [hx] at hinfc
    rw [parse_begrip_to_xml x _ hinfc]
    rfl
  have s15 : ∀ st, accumFrom (informatieobjectTable force)
      (optElems (fun v => v.to_xml "isOnderdeelVan") isOnd) st =
      .ok (pushVals "isOnderdeelVan" (optVals PVal.vVerw isOnd) st) :=
    fun st => accumFrom_optSeg (informatieobjectTable force) "isOnderdeelVan" _ rfl isOnd _ PVal.vVerw
      (fun x => by simp) (fun x _ => by rw [parse_verwijzing_to_xml]; rfl) st
  have s16 : ∀ st, accumFrom (informatieobjectTable force)
      (guardRepElems (fun v => v.to_xml "bevatOnderdeel") bevat) st =
      .ok (pushVals "bevatOnderdeel" (guardRepVals PVal.vVerw bevat) st) :=
    fun st => accumFrom_guardRepSeg (informatieobjectTable force) "bevatOnderdeel" _ rfl bevat _ PVal.vVerw
      (fun x => by simp) (fun x _ => by rw [parse_verwijzing_to_xml]; rfl) st
  have s17 : ∀ st, accumFrom (informatieobjectTable force)
      (optElems (fun v => v.to_xml "heeftRepresentatie") heeftR) st =
      .ok (pushVals "heeftRepresentatie" (optVals PVal.vVerw heeftR) st) :=
    fun st => accumFrom_optSeg (informatieobjectTable force) "heeftRepresentatie" _ rfl heeftR _ PVal.vVerw
      (fun x => by simp) (fun x _ => by rw [parse_verwijzing_to_xml]; rfl) st
  have s18 : ∀ st, accumFrom (informatieobjectTable force)
      (guardRepElems (fun v => v.to_xml "aanvullendeMetagegevens") aanv) st =
      .ok (pushVals "aanvullendeMetagegevens" (guardRepVals PVal.vVerw aanv) st) :=
    fun st => accumFrom_guardRepSeg (informatieobjectTable force) "aanvullendeMetagegevens" _ rfl aanv _
      PVal.vVerw (fun x => by simp)
      (fun x _ => by rw [parse_verwijzing_to_xml]; rfl) st
  have s19 : ∀ st, accumFrom (informatieobjectTable force)
      [av.to_xml "archiefvormer"] st =
      .ok (pushVals "archiefvormer" [PVal.vVerw av] st) :=
    fun st => accumFrom_single (informatieobjectTable force) "archiefvormer" _ rfl _ _ (by simp)
      (by rw [parse_verwijzing_to_xml]; rfl) st
  have s20 : ∀ st, accumFrom (informatieobjectTable force)
      (guardRepElems BetrokkeneGegevens.to_xml betr) st =
      .ok (pushVals "betrokkene" (guardRepVals PVal.vBetrokkene betr) st) := by
    intro st
    refine accumFrom_guardRepSeg (informatieobjectTable force) "betrokkene" _ rfl betr _ PVal.vBetrokkene
      (fun x => by simp) (fun x hx => ?_) st
    have hwfb : wfBetrokkene x = true := by
      cases hb : betr with
      | none => rw [hb] at hx; cases hx
      | some l =>
        rw [hb] at hbetr hx
        simp only [Bool.and_eq_true] at hbetr
        exact List.all_eq_true.mp hbetr.2 x hx
    rw [parse_betrokkene_to_xml x hwfb]
    rfl
  have s21 : ∀ st, accumFrom (informatieobjectTable force)
      (optElems (fun v => v.to_xml "activiteit") act) st =
      .ok (pushVals "activiteit" (optVals PVal.vVerw act) st) :=
    fun st => accumFrom_optSeg (informatieobjectTable force) "activiteit" _ rfl act _ PVal.vVerw
      (fun x => by simp) (fun x _ => by rw [parse_verwijzing_to_xml]; rfl) st
  have s22 : ∀ st, accumFrom (informatieobjectTable force)
      (bep.toList.map BeperkingGebruikGegevens.to_xml) st =
      .ok (pushVals "beperkingGebruik" (bep.toList.map PVal.vBeperking) st) :=
    fun st => accumFrom_segment (informatieobjectTable force) "beperkingGebruik" _ rfl _ _ _
      (fun x => by simp)
      (fun x hx => by rw [parse_beperking_to_xml x (hbepwf x hx)]; rfl) st
  -- the wf side conditions of the converter lemmas
  have htwne : ∀ x, tw = some x → x.toList ≠ [] := by
    intro x hx
    rw [hx] at htw
    simp only [Bool.and_eq_true] at htw
    simpa [List.isEmpty_iff] using htw.1
  have htwitems : ∀ x, tw = some x → ∀ s ∈ x.toList, pyTruthyStr s = true := by
    intro x hx s hs
    rw [hx] at htw
    simp only [Bool.and_eq_true] at htw
    exact List.all_eq_true.mp htw.2 s hs
  have hevne : ∀ x, ev = some x → x.toList ≠ [] := by
    intro x hx
    rw [hx] at hev
    simp only [Bool.and_eq_true] at hev
    simpa [List.isEmpty_iff] using hev.1
  have hbevatne : ∀ x, bevat = some x → x.toList ≠ [] := by
    intro x hx
    rw [hx] at hbevat
    simpa [List.isEmpty_iff] using hbevat
  have haanvne : ∀ x, aanv = some x → x.toList ≠ [] := by
    intro x hx
    rw [hx] at haanv
    simpa [List.isEmpty_iff] using haanv
  have hbetrne : ∀ x, betr = some x → x.toList ≠ [] := by
    intro x hx
    rw [hx] at hbetr
    simp only [Bool.and_eq_true] at hbetr
    simpa [List.isEmpty_iff] using hbetr.1
  rw [parse_informatieobject, elem_to_mdto]
  simp only [accumFrom_append, s01, s02, s03, s04, s05, s06, s07, s08, s09,
    s10, s11, s12, s13, s14, s15, s16, s17, s18, s19, s20, s21, s22,
    Except.bind, Bind.bind, Except.instMonad]
  simp [pushVals, initArgs, informatieobjectTable]
  simp only [collapseArgs, List.map_cons, List.map_nil, mkInformatieobjectArgs_keys]
  simp only [asOptText_single_vText, asReq_single_vBegrip, asReqRep_single_vVerw,
    asReqRep_eval exIdent PVal.vIdent (fun _ => rfl) ident hidentne,
    asOpt_eval exBegrip PVal.vBegrip (fun _ => rfl) aggr,
    asOpt_eval exBegrip PVal.vBegrip (fun _ => rfl) klass,
    asOpt_eval exBegrip PVal.vBegrip (fun _ => rfl) infc,
    asRepText_eval tw htwne htwitems,
    asOptText_eval_wf omsch homsch,
    asOptText_eval_wf taal htaal,
    asOpt_eval exRaadpleeg PVal.vRaadpleeg (fun _ => rfl) raad,
    asOpt_eval exDekking PVal.vDekking (fun _ => rfl) dek,
    asOpt_eval exTermijn PVal.vTermijn (fun _ => rfl) bew,
    asOpt_eval exVerw PVal.vVerw (fun _ => rfl) ruimte,
    asOpt_eval exVerw PVal.vVerw (fun _ => rfl) isOnd,
    asOpt_eval exVerw PVal.vVerw (fun _ => rfl) heeftR,
    asOpt_eval exVerw PVal.vVerw (fun _ => rfl) act,
    asOpt_eval exGerelateerd PVal.vGerelateerd (fun _ => rfl) (none),
    asRep_eval exEvent PVal.vEvent (fun _ => rfl) ev hevne,
    asRep_eval exVerw PVal.vVerw (fun _ => rfl) bevat hbevatne,
    asRep_eval exVerw PVal.vVerw (fun _ => rfl) aanv haanvne,
    asRep_eval exBetrokkene PVal.vBetrokkene (fun _ => rfl) betr hbetrne,
    asReqRep_eval exBeperking PVal.vBeperking (fun _ => rfl) bep hbepne,
    Except.bind, Bind.bind, Except.instMonad]
  rfl


/-! ## The serialization chain -/

theorem pyTruthyObjs_canon {γ : Type} (x : OneOrList γ) (hne : x.toList ≠ []) :
    pyTruthyObjs (some (canonRep x)) = true := by
  rw [canonRep]
  match hl : x.toList with
  | [] => exact absurd hl hne
  | [v] => rfl
  | v :: w :: rest => rfl

theorem guardRepElems_canon {γ : Type} (f : γ → Elem) (o : Option (OneOrList γ))
    (hne : ∀ x, o = some x → x.toList ≠ []) :
    guardRepElems f (o.map canonRep) = guardRepElems f o := by
  cases o with
  | none => rfl
  | some x =>
    have hx := hne x rfl
    have hg1 : pyTruthyObjs (some (canonRep x)) = true := pyTruthyObjs_canon x hx
    have hg2 : pyTruthyObjs (some x) = true := by
      cases x with
      | one a => rfl
      | list l =>
        simp only [OneOrList.toList_list] at hx
        simp [pyTruthyObjs, List.isEmpty_iff, hx]
    rw [guardRepElems, guardRepElems]
    rw [show Option.map canonRep (some x) = some (canonRep x) from rfl]
    rw [hg1, hg2, if_pos rfl, if_pos rfl]
    simp [canonRep_toList]

theorem trefwoordElems_canon (o : Option (OneOrList (Option String)))
    (hne : ∀ x, o = some x → x.toList ≠ [])
    (hitems : ∀ x, o = some x → ∀ s ∈ x.toList, pyTruthyStr s = true) :
    trefwoordElems (o.map canonRep) = trefwoordElems o := by
  cases o with
  | none => rfl
  | some x =>
    have hx := hne x rfl
    have hg1 : pyTruthyStrs (some (canonRep x)) = true := by
      rw [canonRep]
      match hl : x.toList with
      | [] => exact absurd hl hx
      | [v] =>
        exact hitems x rfl v (by rw [hl]; simp)
      | v :: w :: rest => rfl
    have hg2 : pyTruthyStrs (some x) = true := by
      cases x with
      | one a => exact hitems (.one a) rfl a (by simp)
      | list l =>
        simp only [OneOrList.toList_list] at hx
        simp [pyTruthyStrs, List.isEmpty_iff, hx]
    rw [trefwoordElems, trefwoordElems]
    rw [show Option.map canonRep (some x) = some (canonRep x) from rfl]
    rw [hg1, hg2, if_pos rfl, if_pos rfl]
    simp [canonRep_toList]

/-- The serialized children of the re-collapsed record are exactly those of
the original record. -/
theorem kids_canonInformatieobject (io : Informatieobject)
    (hwf : wfInformatieobject io = true) :
    (canonInformatieobject io).kids = io.kids := by
  obtain ⟨naam, ident, arch, bep, waard, aggr, klass, tw, omsch, raad, dek,
    ruimte, taal, ev, bew, infc, bevat, isOnd, heeftR, aanv, ger, betr, act⟩ := io
  rw [wfInformatieobject] at hwf
  simp only [Bool.and_eq_true] at hwf
  obtain ⟨⟨⟨⟨⟨⟨⟨⟨⟨⟨⟨⟨⟨⟨⟨⟨⟨hger, harch⟩, hident⟩, hbep⟩, hwaard⟩, haggr⟩,
    hklass⟩, htw⟩, homsch⟩, hraad⟩, hdek⟩, htaal⟩, hev⟩, hbew⟩, hinfc⟩,
    hbevat⟩, haanv⟩, hbetr⟩ := hwf
  have htwne : ∀ x, tw = some x → x.toList ≠ [] := by
    intro x hx
    rw [hx] at htw
    simp only [Bool.and_eq_true] at htw
    simpa [List.isEmpty_iff] using htw.1
  have htwitems : ∀ x, tw = some x → ∀ s ∈ x.toList, pyTruthyStr s = true := by
    intro x hx s hs
    rw [hx] at htw
    simp only [Bool.and_eq_true] at htw
    exact List.all_eq_true.mp htw.2 s hs
  have hevne : ∀ x, ev = some x → x.toList ≠ [] := by
    intro x hx
    rw [hx] at hev
    simp only [Bool.and_eq_true] at hev
    simpa [List.isEmpty_iff] using hev.1
  have hbevatne : ∀ x, bevat = some x → x.toList ≠ [] := by
    intro x hx
    rw [hx] at hbevat
    simpa [List.isEmpty_iff] using hbevat
  have haanvne : ∀ x, aanv = some x → x.toList ≠ [] := by
    intro x hx
    rw [hx] at haanv
    simpa [List.isEmpty_iff] using haanv
  have hbetrne : ∀ x, betr = some x → x.toList ≠ [] := by
    intro x hx
    rw [hx] at hbetr
    simp only [Bool.and_eq_true] at hbetr
    simpa [List.isEmpty_iff] using hbetr.1
  rw [canonInformatieobject]
  rw [Informatieobject.kids.eq_def, Informatieobject.kids.eq_def]
  simp only []
  cases arch with
  | list l => rfl
  | one av =>
    cases hg : ger with
    | some g =>
      rfl
    | none =>
      simp only []
      rw [trefwoordElems_canon tw htwne htwitems,
        guardRepElems_canon EventGegevens.to_xml ev hevne,
        guardRepElems_canon _ bevat hbevatne,
        guardRepElems_canon _ aanv haanvne,
        guardRepElems_canon BetrokkeneGegevens.to_xml betr hbetrne]
      simp [canonRep_toList]

/-- The serialized children of the re-collapsed `Bestand` are exactly those
of the original. -/
theorem kids_canonBestand (b : Bestand) :
    Bestand.kids { b with identificatie := canonRep b.identificatie } = b.kids := by
  obtain ⟨naam, ident, omvang, fmt, chk, repr0, url⟩ := b
  rw [Bestand.kids.eq_def, Bestand.kids.eq_def]
  simp only []
  cases chk with
  | list l => rfl
  | one c => simp [canonRep_toList]

/-- On any document serialized from a well-formed `Informatieobject`, the
test suite chain (`from_file` then `to_xml` then canonical rendering)
reproduces the canonical rendering of that very document. -/
theorem serializationChain_informatieobject (force quiet : Bool)
    (io : Informatieobject) (hwf : wfInformatieobject io = true)
    (t : Elem) (io2 : Informatieobject) (hxml : io.to_xml = .ok (t, io2)) :
    serializationChain force quiet t = .ok (renderDoc t) := by
  rw [Informatieobject.to_xml] at hxml
  cases hk : io.kids with
  | error e =>
    rw [hk] at hxml
    cases hxml
  | ok ks =>
    rw [hk] at hxml
    simp only [Except.bind, Bind.bind, Except.instMonad] at hxml
    rw [Except.ok.injEq, Prod.mk.injEq] at hxml
    have ht : t = Elem.mk "MDTO" none mdtoAttrs [node "informatieobject" ks] := by
      rw [← hxml.1]
    subst ht
    rw [serializationChain, from_file]
    simp only [Elem.children_mk, node_tag, node_children, String.reduceEq, reduceIte]
    rw [parse_informatieobject_to_xml force io hwf ks hk]
    simp only [Except.map, Except.bind, Bind.bind, Except.instMonad]
    rw [Informatieobject.to_xml]
    rw [kids_canonInformatieobject io hwf, hk]
    rfl

/-- Same for documents serialized from a well-formed `Bestand`. -/
theorem serializationChain_bestand (force quiet : Bool) (b : Bestand)
    (hwf : wfBestand b = true) (t : Elem) (b2 : Bestand)
    (hxml : b.to_xml = .ok (t, b2)) :
    serializationChain force quiet t = .ok (renderDoc t) := by
  rw [Bestand.to_xml] at hxml
  cases hk : b.kids with
  | error e =>
    rw [hk] at hxml
    cases hxml
  | ok ks =>
    rw [hk] at hxml
    simp only [Except.bind, Bind.bind, Except.instMonad] at hxml
    rw [Except.ok.injEq, Prod.mk.injEq] at hxml
    have ht : t = Elem.mk "MDTO" none mdtoAttrs [node "bestand" ks] := by
      rw [← hxml.1]
    subst ht
    rw [serializationChain, from_file]
    simp only [Elem.children_mk, node_tag, node_children, String.reduceEq, reduceIte]
    rw [parse_bestand_to_xml force quiet b hwf ks hk]
    simp only [Except.map, Except.bind, Bind.bind, Except.instMonad]
    rw [Bestand.to_xml]
    rw [kids_canonBestand b, hk]
    rfl


/-! ## Fixed child-element order (spec section: field-order invariant) -/

/-- The fixed declared order of `<informatieobject>` child elements. -/
def ioTagOrder : List String :=
  ["identificatie", "naam", "aggregatieniveau", "classificatie", "trefwoord",
   "omschrijving", "raadpleeglocatie", "dekkingInTijd", "dekkingInRuimte",
   "taal", "event", "waardering", "bewaartermijn", "informatiecategorie",
   "isOnderdeelVan", "bevatOnderdeel", "heeftRepresentatie",
   "aanvullendeMetagegevens", "gerelateerdInformatieobject", "archiefvormer",
   "betrokkene", "activiteit", "beperkingGebruik"]

/-- The fixed declared order of `<bestand>` child elements. -/
def bestandTagOrder : List String :=
  ["identificatie", "naam", "omvang", "bestandsformaat", "checksum",
   "URLBestand", "isRepresentatieVan"]

def countOpt {γ : Type} (o : Option γ) : Nat := if o.isSome then 1 else 0

def countGuardText (o : Option String) : Nat := if pyTruthyStr o then 1 else 0

def countGuardRep {γ : Type} (o : Option (OneOrList γ)) : Nat :=
  if pyTruthyObjs o then ((o.map OneOrList.toList).getD []).length else 0

/-- How many child elements each field of an `Informatieobject` emits:
zero for an absent (or falsy) optional field, one for a present scalar,
the item count for a repeatable field. -/
def ioEmitCount (io : Informatieobject) (t : String) : Nat :=
  if t = "identificatie" then io.identificatie.toList.length
  else if t = "naam" then 1
  else if t = "aggregatieniveau" then countOpt io.aggregatieniveau
  else if t = "classificatie" then countOpt io.classificatie
  else if t = "trefwoord" then
    (if pyTruthyStrs io.trefwoord then
      ((io.trefwoord.map OneOrList.toList).getD []).length else 0)
  else if t = "omschrijving" then countGuardText io.omschrijving
  else if t = "raadpleeglocatie" then countOpt io.raadpleeglocatie
  else if t = "dekkingInTijd" then countOpt io.dekkingInTijd
  else if t = "dekkingInRuimte" then countOpt io.dekkingInRuimte
  else if t = "taal" then countGuardText io.taal
  else if t = "event" then countGuardRep io.event
  else if t = "waardering" then 1
  else if t = "bewaartermijn" then countOpt io.bewaartermijn
  else if t = "informatiecategorie" then countOpt io.informatiecategorie
  else if t = "isOnderdeelVan" then countOpt io.isOnderdeelVan
  else if t = "bevatOnderdeel" then countGuardRep io.bevatOnderdeel
  else if t = "heeftRepresentatie" then countOpt io.heeftRepresentatie
  else if t = "aanvullendeMetagegevens" then countGuardRep io.aanvullendeMetagegevens
  else if t = "gerelateerdInformatieobject" then countOpt io.gerelateerdInformatieobject
  else if t = "archiefvormer" then 1
  else if t = "betrokkene" then countGuardRep io.betrokkene
  else if t = "activiteit" then countOpt io.activiteit
  else if t = "beperkingGebruik" then io.beperkingGebruik.toList.length
  else 0

/-- How many child elements each field of a `Bestand` emits. -/
def bestandEmitCount (b : Bestand) (t : String) : Nat :=
  if t = "identificatie" then b.identificatie.toList.length
  else if t = "naam" then 1
  else if t = "omvang" then 1
  else if t = "bestandsformaat" then countOpt b.bestandsformaat
  else if t = "checksum" then 1
  else if t = "URLBestand" then countGuardText b.URLBestand
  else if t = "isRepresentatieVan" then countOpt b.isRepresentatieVan
  else 0

theorem map_tag_const {γ : Type} (xs : List γ) (f : γ → Elem) (t : String)
    (htag : ∀ x ∈ xs, (f x).tag = t) :
    (xs.map f).map Elem.tag = List.replicate xs.length t := by
  induction xs with
  | nil => rfl
  | cons x xs ih =>
    simp only [List.map_cons, List.length_cons, List.replicate_succ]
    rw [htag x (List.mem_cons_self x xs),
      ih (fun y hy => htag y (List.mem_cons_of_mem x hy))]

theorem optElems_tags {γ : Type} (f : γ → Elem) (o : Option γ) (t : String)
    (htag : ∀ x, (f x).tag = t) :
    (optElems f o).map Elem.tag = List.replicate (countOpt o) t := by
  cases o with
  | none => rfl
  | some x => simp [optElems, countOpt, htag]

theorem guardTextElems_tags (t : String) (o : Option String) :
    (guardTextElems t o).map Elem.tag = List.replicate (countGuardText o) t := by
  rw [guardTextElems, countGuardText]
  by_cases h : pyTruthyStr o = true
  · simp [h]
  · simp only [Bool.not_eq_true] at h
    simp [h]

theorem guardRepElems_tags {γ : Type} (f : γ → Elem) (o : Option (OneOrList γ))
    (t : String) (htag : ∀ x, (f x).tag = t) :
    (guardRepElems f o).map Elem.tag = List.replicate (countGuardRep o) t := by
  rw [guardRepElems, countGuardRep]
  by_cases h : pyTruthyObjs o = true
  · simp only [h, if_true]
    rw [map_tag_const _ f t (fun x _ => htag x)]
  · simp only [Bool.not_eq_true] at h
    simp [h]

theorem trefwoordElems_tags (o : Option (OneOrList (Option String))) :
    (trefwoordElems o).map Elem.tag =
      List.replicate
        (if pyTruthyStrs o then ((o.map OneOrList.toList).getD []).length else 0)
        "trefwoord" := by
  rw [trefwoordElems]
  by_cases h : pyTruthyStrs o = true
  · simp only [h, if_true]
    rw [map_tag_const _ _ "trefwoord" (fun x _ => by simp)]
  · simp only [Bool.not_eq_true] at h
    simp [h]

/-- The tag sequence of the children emitted for an `Informatieobject` is
exactly the fixed declared order, with each field contributing its own
count of consecutive equal tags and absent optional fields contributing
nothing. -/
theorem informatieobject_tag_order (io : Informatieobject) (ks : List Elem)
    (hks : io.kids = .ok ks) :
    ks.map Elem.tag =
      (ioTagOrder.map (fun t => List.replicate (ioEmitCount io t) t)).join := by
  rw [Informatieobject.kids.eq_def] at hks
  cases hg : io.gerelateerdInformatieobject with
  | some g => rw [hg] at hks; cases hks
  | none =>
  rw [hg] at hks
  cases ha : io.archiefvormer with
  | list l => rw [ha] at hks; cases hks
  | one av =>
  rw [ha] at hks
  simp only [] at hks
  rw [Except.ok.injEq] at hks
  subst hks
  simp only [List.map_append]
  rw [map_tag_const io.identificatie.toList _ "identificatie" (fun i _ => by simp),
    optElems_tags _ io.aggregatieniveau "aggregatieniveau" (fun b => by simp),
    optElems_tags _ io.classificatie "classificatie" (fun b => by simp),
    trefwoordElems_tags io.trefwoord,
    guardTextElems_tags "omschrijving" io.omschrijving,
    optElems_tags _ io.raadpleeglocatie "raadpleeglocatie" (fun v => by simp),
    optElems_tags _ io.dekkingInTijd "dekkingInTijd" (fun v => by simp),
    optElems_tags _ io.dekkingInRuimte "dekkingInRuimte" (fun v => by simp),
    guardTextElems_tags "taal" io.taal,
    guardRepElems_tags _ io.event "event" (fun v => by simp),
    optElems_tags _ io.bewaartermijn "bewaartermijn" (fun v => by simp),
    optElems_tags _ io.informatiecategorie "informatiecategorie" (fun v => by simp),
    optElems_tags _ io.isOnderdeelVan "isOnderdeelVan" (fun v => by simp),
    guardRepElems_tags _ io.bevatOnderdeel "bevatOnderdeel" (fun v => by simp),
    optElems_tags _ io.heeftRepresentatie "heeftRepresentatie" (fun v => by simp),
    guardRepElems_tags _ io.aanvullendeMetagegevens "aanvullendeMetagegevens"
      (fun v => by simp),
    guardRepElems_tags _ io.betrokkene "betrokkene" (fun v => by simp),
    optElems_tags _ io.activiteit "activiteit" (fun v => by simp),
    map_tag_const io.beperkingGebruik.toList _ "beperkingGebruik" (fun b _ => by simp)]
  simp [ioTagOrder, ioEmitCount, countOpt, List.join, hg]


/-- The tag sequence of the children emitted for a `Bestand` is exactly
the fixed declared order, with each field contributing its own count of
consecutive equal tags and absent optional fields contributing nothing. -/
theorem bestand_tag_order (b : Bestand) (ks : List Elem)
    (hks : b.kids = .ok ks) :
    ks.map Elem.tag =
      (bestandTagOrder.map (fun t => List.replicate (bestandEmitCount b t) t)).join := by
  rw [Bestand.kids.eq_def] at hks
  cases hc : b.checksum with
  | list l => rw [hc] at hks; cases hks
  | one cv =>
  rw [hc] at hks
  simp only [] at hks
  rw [Except.ok.injEq] at hks
  subst hks
  simp only [List.map_append]
  rw [map_tag_const b.identificatie.toList _ "identificatie" (fun i _ => by simp),
    optElems_tags _ b.bestandsformaat "bestandsformaat" (fun f => by simp),
    guardTextElems_tags "URLBestand" b.URLBestand,
    optElems_tags _ b.isRepresentatieVan "isRepresentatieVan" (fun v => by simp)]
  simp [bestandTagOrder, bestandEmitCount, countOpt, List.join]


/-! ## Decidable equality for results -/

instance {ε α : Type} [DecidableEq ε] [DecidableEq α] : DecidableEq (Except ε α) :=
  fun a b =>
  match a, b with
  | .ok x, .ok y =>
    if h : x = y then .isTrue (by rw [h]) else .isFalse (fun he => h (by cases he; rfl))
  | .error x, .error y =>
    if h : x = y then .isTrue (by rw [h]) else .isFalse (fun he => h (by cases he; rfl))
  | .ok _, .error _ => .isFalse (fun he => by cases he)
  | .error _, .ok _ => .isFalse (fun he => by cases he)

/-! ## Sample records and documents -/

def sampleVerw : VerwijzingGegevens := { verwijzingNaam := some "Gemeente Dam" }

def sampleBegrip : BegripGegevens :=
  { begripLabel := some "PDF", begripBegrippenlijst := sampleVerw }

def sampleChecksum : ChecksumGegevens :=
  { checksumAlgoritme := sampleBegrip, checksumWaarde := some "abc123",
    checksumDatum := some "2024-01-01T00:00:00" }

def sampleIdent : IdentificatieGegevens :=
  { identificatieKenmerk := some "k1", identificatieBron := some "bron" }

def sampleBeperking : BeperkingGebruikGegevens :=
  { beperkingGebruikType := sampleBegrip }

def sampleEvent : EventGegevens := { eventType := sampleBegrip }

def sampleBestand : Bestand :=
  { naam := some "doc.pdf", identificatie := .one sampleIdent, omvang := 7,
    bestandsformaat := some sampleBegrip, checksum := .one sampleChecksum,
    isRepresentatieVan := some sampleVerw }

/-- The `<bestand>` children `Bestand.to_xml` emits for `sampleBestand`. -/
def sampleBestandKids : List Elem :=
  [sampleIdent.to_xml "identificatie",
   leaf "naam" (some "doc.pdf"),
   leaf "omvang" (some "7"),
   sampleBegrip.to_xml "bestandsformaat",
   sampleChecksum.to_xml,
   sampleVerw.to_xml "isRepresentatieVan"]

def sampleBestandTree : Elem :=
  Elem.mk "MDTO" none mdtoAttrs [node "bestand" sampleBestandKids]

def sampleBestandMut : Bestand :=
  { sampleBestand with identificatie := .list [sampleIdent] }

/-- The same document with `<omvang>007</omvang>`: a leading zero that
`int()`/`str()` does not preserve. -/
def doc007 : Elem :=
  Elem.mk "MDTO" none mdtoAttrs
    [node "bestand"
      [sampleIdent.to_xml "identificatie",
       leaf "naam" (some "doc.pdf"),
       leaf "omvang" (some "007"),
       sampleBegrip.to_xml "bestandsformaat",
       sampleChecksum.to_xml,
       sampleVerw.to_xml "isRepresentatieVan"]]

def sampleInfObj : Informatieobject :=
  { naam := some "Dossier 1", identificatie := .one sampleIdent,
    archiefvormer := .one sampleVerw, beperkingGebruik := .one sampleBeperking,
    waardering := sampleBegrip }

/-! ## A conforming `<bestand>` document, modelled from the spec

Modelled from the spec: what it means for a document to be a valid MDTO
document of kind `bestand` (closed schema, fixed element order, the
`omvang` text in the lexical space of a base-10 nonnegative integer, which
admits leading zeros).  Only the shapes needed for the round-trip
counterexample are covered; the predicate is a restriction of (not an
extension of) schema validity. -/

def validTextEl (t : String) (e : Elem) : Bool :=
  e.tag = t && e.children.isEmpty && pyTruthyStr e.text

def validIdentificatieEl (root : String) (e : Elem) : Bool :=
  e.tag = root &&
  (match e.children with
   | [k, b] => validTextEl "identificatieKenmerk" k && validTextEl "identificatieBron" b
   | _ => false)

def validVerwijzingEl (root : String) (e : Elem) : Bool :=
  e.tag = root &&
  (match e.children with
   | [n] => validTextEl "verwijzingNaam" n
   | [n, i] => validTextEl "verwijzingNaam" n &&
       validIdentificatieEl "verwijzingIdentificatie" i
   | _ => false)

def validBegripEl (root : String) (e : Elem) : Bool :=
  e.tag = root &&
  (match e.children with
   | [l, bl] => validTextEl "begripLabel" l && validVerwijzingEl "begripBegrippenlijst" bl
   | [l, c, bl] => validTextEl "begripLabel" l && validTextEl "begripCode" c &&
       validVerwijzingEl "begripBegrippenlijst" bl
   | _ => false)

def validChecksumEl (e : Elem) : Bool :=
  e.tag = "checksum" &&
  (match e.children with
   | [alg, w, d] => validBegripEl "checksumAlgoritme" alg &&
       validTextEl "checksumWaarde" w && validTextEl "checksumDatum" d
   | _ => false)

/-- Lexical space of `xs:nonNegativeInteger`: one or more decimal digits
(leading zeros allowed). -/
def validIntText (e : Elem) : Bool :=
  e.tag = "omvang" && e.children.isEmpty &&
  (match e.text with
   | some s => !s.isEmpty && s.data.all Char.isDigit
   | none => false)

/-- The tail of the `<bestand>` sequence after `naam` and `omvang`:
`bestandsformaat?`, `checksum`, `URLBestand?`, `isRepresentatieVan?`. -/
def validBestandTail2 (ks : List Elem) : Bool :=
  match ks with
  | [ck] => validChecksumEl ck
  | [ck, rep] => validChecksumEl ck &&
      (validTextEl "URLBestand" rep || validVerwijzingEl "isRepresentatieVan" rep)
  | [ck, url, rep] => validChecksumEl ck && validTextEl "URLBestand" url &&
      validVerwijzingEl "isRepresentatieVan" rep
  | _ => false

def validBestandTail (ks : List Elem) : Bool :=
  match ks with
  | fmt :: rest =>
    if fmt.tag = "bestandsformaat" then
      validBegripEl "bestandsformaat" fmt && validBestandTail2 rest
    else validBestandTail2 (fmt :: rest)
  | [] => false

def validBestandSeq (ks : List Elem) : Bool :=
  match ks with
  | i :: n :: o :: rest =>
    validIdentificatieEl "identificatie" i && validTextEl "naam" n &&
    validIntText o && validBestandTail rest
  | _ => false

/-- A valid MDTO document of kind `bestand` (restricted to single
`identificatie`; see the section comment). -/
def validBestandDoc (doc : Elem) : Bool :=
  doc.tag = "MDTO" && doc.attrs = mdtoAttrs &&
  (match doc.children with
   | [b] => b.tag = "bestand" && b.children.length ≥ 4 && validBestandSeq b.children
   | _ => false)


/-! ## Helper lemmas: the emitted tree depends only on the children list -/

theorem Informatieobject.to_xml_fst_io (io : Informatieobject) :
    io.to_xml.map Prod.fst =
      io.kids.map (fun ks => Elem.mk "MDTO" none mdtoAttrs [node "informatieobject" ks]) := by
  rw [Informatieobject.to_xml]
  cases h : io.kids <;> rfl

theorem Bestand.to_xml_fst_kids (b : Bestand) :
    b.to_xml.map Prod.fst =
      b.kids.map (fun ks => Elem.mk "MDTO" none mdtoAttrs [node "bestand" ks]) := by
  rw [Bestand.to_xml]
  cases h : b.kids <;> rfl

/-! ## Helper lemmas: a bare value and its one-element list serialize alike -/

theorem guardRepElems_one_list {γ : Type} (f : γ → Elem) (v : γ) :
    guardRepElems f (some (.one v)) = guardRepElems f (some (.list [v])) := rfl

theorem trefwoordElems_one_list (t : Option String) (h : pyTruthyStr t = true) :
    trefwoordElems (some (.one t)) = trefwoordElems (some (.list [t])) := by
  rw [trefwoordElems, trefwoordElems]
  simp [pyTruthyStrs, h, OneOrList.toList]

/-! ## Helper lemmas: the in-place normalization is invisible to `kids`
and idempotent -/

theorem pyTruthyStrs_wrap (tw : Option (OneOrList (Option String)))
    (h : pyTruthyStrs tw = true) :
    pyTruthyStrs (tw.map (fun t => OneOrList.list t.toList)) = true := by
  cases tw with
  | none => cases h
  | some x =>
    cases x with
    | one t => rfl
    | list l => simpa [pyTruthyStrs, OneOrList.toList] using h

theorem pyTruthyObjs_wrap {γ : Type} (o : Option (OneOrList γ))
    (h : pyTruthyObjs o = true) :
    pyTruthyObjs (o.map (fun v => OneOrList.list v.toList)) = true := by
  cases o with
  | none => cases h
  | some x =>
    cases x with
    | one a => rfl
    | list l => simpa [pyTruthyObjs, OneOrList.toList] using h

theorem trefwoordElems_wrap (tw : Option (OneOrList (Option String))) :
    trefwoordElems
      (if pyTruthyStrs tw then tw.map (fun t => OneOrList.list t.toList) else tw)
    = trefwoordElems tw := by
  by_cases h : pyTruthyStrs tw = true
  · rw [if_pos h]
    cases tw with
    | none => rfl
    | some x =>
      rw [trefwoordElems, trefwoordElems]
      have h2 := pyTruthyStrs_wrap (some x) h
      simp only [Option.map] at h2 ⊢
      rw [h2, h]
      simp [OneOrList.toList]
  · rw [if_neg h]

theorem guardRepElems_wrap {γ : Type} (f : γ → Elem) (o : Option (OneOrList γ)) :
    guardRepElems f
      (if pyTruthyObjs o then o.map (fun v => OneOrList.list v.toList) else o)
    = guardRepElems f o := by
  by_cases h : pyTruthyObjs o = true
  · rw [if_pos h]
    cases o with
    | none => rfl
    | some x =>
      rw [guardRepElems, guardRepElems]
      have h2 := pyTruthyObjs_wrap (some x) h
      simp only [Option.map] at h2 ⊢
      rw [h2, h]
      simp [OneOrList.toList]
  · rw [if_neg h]

theorem wrapStrs_idem (tw : Option (OneOrList (Option String))) :
    (if pyTruthyStrs
        (if pyTruthyStrs tw then tw.map (fun t => OneOrList.list t.toList) else tw)
     then (if pyTruthyStrs tw then tw.map (fun t => OneOrList.list t.toList) else tw).map
            (fun t => OneOrList.list t.toList)
     else (if pyTruthyStrs tw then tw.map (fun t => OneOrList.list t.toList) else tw))
    = (if pyTruthyStrs tw then tw.map (fun t => OneOrList.list t.toList) else tw) := by
  by_cases h : pyTruthyStrs tw = true
  · rw [if_pos h]
    cases tw with
    | none => cases h
    | some x =>
      split
      · simp [OneOrList.toList]
      · rfl
  · rw [if_neg h, if_neg h]

theorem wrapObjs_idem {γ : Type} (o : Option (OneOrList γ)) :
    (if pyTruthyObjs
        (if pyTruthyObjs o then o.map (fun v => OneOrList.list v.toList) else o)
     then (if pyTruthyObjs o then o.map (fun v => OneOrList.list v.toList) else o).map
            (fun v => OneOrList.list v.toList)
     else (if pyTruthyObjs o then o.map (fun v => OneOrList.list v.toList) else o))
    = (if pyTruthyObjs o then o.map (fun v => OneOrList.list v.toList) else o) := by
  by_cases h : pyTruthyObjs o = true
  · rw [if_pos h]
    cases o with
    | none => cases h
    | some x =>
      split
      · simp [OneOrList.toList]
      · rfl
  · rw [if_neg h, if_neg h]

theorem kids_normalizeSelf (io : Informatieobject) :
    io.normalizeSelf.kids = io.kids := by
  obtain ⟨naam, ident, arch, bep, waard, aggr, klass, tw, omsch, raad, dek,
    ruimte, taal, ev, bew, infc, bevat, isOnd, heeftR, aanv, ger, betr, act⟩ := io
  rw [Informatieobject.normalizeSelf]
  rw [Informatieobject.kids.eq_def, Informatieobject.kids.eq_def]
  simp only []
  cases ger with
  | some g => rfl
  | none =>
    cases arch with
    | list l => rfl
    | one av =>
      rw [trefwoordElems_wrap, guardRepElems_wrap, guardRepElems_wrap,
        guardRepElems_wrap, guardRepElems_wrap]
      simp [OneOrList.toList]

theorem normalizeSelf_idem (io : Informatieobject) :
    io.normalizeSelf.normalizeSelf = io.normalizeSelf := by
  obtain ⟨naam, ident, arch, bep, waard, aggr, klass, tw, omsch, raad, dek,
    ruimte, taal, ev, bew, infc, bevat, isOnd, heeftR, aanv, ger, betr, act⟩ := io
  rw [Informatieobject.normalizeSelf, Informatieobject.normalizeSelf]
  simp only []
  rw [wrapStrs_idem tw, wrapObjs_idem ev, wrapObjs_idem bevat, wrapObjs_idem aanv,
    wrapObjs_idem betr]
  simp [OneOrList.toList]


/-! ## Base-10 numerals, modelled from the spec -/

/-- Modelled from the spec: a valid base-10 integer numeral is an optional
minus sign followed by one or more decimal digits, and nothing else. -/
def isDecimalChars : List Char → Bool
  | [] => false
  | c :: cs =>
    if c = '-' then !cs.isEmpty && cs.all Char.isDigit
    else c.isDigit && cs.all Char.isDigit

def isDecimalNumeral (s : String) : Bool := isDecimalChars s.data

/-- The integer value of a base-10 numeral. -/
def decimalChars : List Char → Int
  | [] => 0
  | c :: cs =>
    if c = '-' then -(digitsToNat cs : Int) else (digitsToNat (c :: cs) : Int)

def decimalVal (s : String) : Int := decimalChars s.data

theorem isPyWs_of_isDigit {c : Char} (h : c.isDigit = true) : isPyWs c = false := by
  rw [isPyWs]
  have hne : ∀ w : Char, w.isDigit = false → (c == w) = false := by
    intro w hw
    rw [beq_eq_false_iff_ne]
    intro he
    rw [he, hw] at h
    cases h
  rw [hne ' ' (by decide), hne (Char.ofNat 9) (by decide), hne (Char.ofNat 10) (by decide),
    hne (Char.ofNat 13) (by decide), hne (Char.ofNat 11) (by decide),
    hne (Char.ofNat 12) (by decide)]
  rfl

theorem pyGroupVal_of_digits (cs : List Char) (hdig : ∀ c ∈ cs, c.isDigit = true) :
    pyGroupVal cs = digitsToNat cs := by
  rw [pyGroupVal, List.filter_eq_self.mpr]
  intro c hc
  have h := hdig c hc
  rw [bne_iff_ne]
  intro he
  rw [he] at h
  cases h

theorem pyInt_of_decimal (s : String) (h : isDecimalNumeral s = true) :
    pyInt s = some (decimalVal s) := by
  rw [isDecimalNumeral] at h
  rw [pyInt, decimalVal]
  cases hd : s.data with
  | nil => rw [hd] at h; cases h
  | cons c cs =>
    rw [hd] at h
    rw [isDecimalChars] at h
    by_cases hc : c = '-'
    · rw [if_pos hc] at h
      rw [Bool.and_eq_true] at h
      have hne : cs ≠ [] := by
        intro he
        rw [he] at h
        cases h.1
      have hdig : ∀ x ∈ cs, x.isDigit = true := List.all_eq_true.mp h.2
      have hnws : ∀ x ∈ (c :: cs), isPyWs x = false := by
        intro x hx
        rcases List.mem_cons.mp hx with rfl | hx2
        · rw [hc]; rfl
        · exact isPyWs_of_isDigit (hdig x hx2)
      rw [dropWhile_eq_self_of_not _ _ hnws,
        dropWhile_eq_self_of_not _ _ (fun x hx => hnws x (List.mem_reverse.mp hx)),
        List.reverse_reverse]
      subst hc
      rw [pyIntCore, if_neg (by decide : ¬(('-' : Char) = '+')), if_pos rfl,
        if_pos (pyDigitsOk_of_digits cs hne hdig), pyGroupVal_of_digits cs hdig,
        decimalChars, if_pos rfl]
      rfl
    · rw [if_neg hc] at h
      rw [Bool.and_eq_true] at h
      have hdig : ∀ x ∈ (c :: cs), x.isDigit = true := by
        intro x hx
        rcases List.mem_cons.mp hx with rfl | hx2
        · exact h.1
        · exact List.all_eq_true.mp h.2 x hx2
      have hplus : ¬(c = '+') := by
        intro he
        have := h.1
        rw [he] at this
        cases this
      have hnws : ∀ x ∈ (c :: cs), isPyWs x = false :=
        fun x hx => isPyWs_of_isDigit (hdig x hx)
      rw [dropWhile_eq_self_of_not _ _ hnws,
        dropWhile_eq_self_of_not _ _ (fun x hx => hnws x (List.mem_reverse.mp hx)),
        List.reverse_reverse]
      rw [pyIntCore, if_neg hplus, if_neg hc,
        if_pos (pyDigitsOk_of_digits (c :: cs) (by simp) hdig),
        pyGroupVal_of_digits (c :: cs) hdig, decimalChars, if_neg hc]
      rfl

/-- Two or more accumulated values stay a list. -/
theorem collapse_two {α : Type} (a b : α) (t : List α) :
    collapse (a :: b :: t) = .multiple (a :: b :: t) := rfl


/-! ## The claims -/

/-- Claim C1, amended: the spec promises byte-identical round trips for
every valid document, but a conforming document can use a lexical form the
tool does not reproduce (for example `omvang` with leading zeros, which
`int()`/`str()` canonicalize).  What holds is stability from the first
serialization on: for every document the tool itself serialized from a
well-formed record, `from_file` followed by `to_xml` and the canonical
rendering reproduces that document byte-for-byte, in every mode. -/
theorem c1_roundtrip_serialized (force quiet : Bool) :
    (∀ (io : Informatieobject) (t : Elem) (io2 : Informatieobject),
        wfInformatieobject io = true → io.to_xml = .ok (t, io2) →
        serializationChain force quiet t = .ok (renderDoc t)) ∧
    (∀ (b : Bestand) (t : Elem) (b2 : Bestand),
        wfBestand b = true → b.to_xml = .ok (t, b2) →
        serializationChain force quiet t = .ok (renderDoc t)) :=
  ⟨fun io t io2 hwf hx => serializationChain_informatieobject force quiet io hwf t io2 hx,
   fun b t b2 hwf hx => serializationChain_bestand force quiet b hwf t b2 hx⟩

set_option maxRecDepth 2000000 in
/-- Witness for C1: a concrete well-formed `Bestand`, its serialized
document, and the byte-identical chain output. -/
theorem c1_roundtrip_serialized_witness :
    wfBestand sampleBestand = true ∧
    sampleBestand.to_xml = .ok (sampleBestandTree, sampleBestandMut) ∧
    serializationChain false false sampleBestandTree = .ok (renderDoc sampleBestandTree) :=
  ⟨by decide, by rfl,
   (c1_roundtrip_serialized false false).2 sampleBestand sampleBestandTree sampleBestandMut
     (by decide) (by rfl)⟩

set_option maxRecDepth 2000000 in
/-- Counterexample to C1 as stated: `doc007` is a conforming `<bestand>`
document (`omvang` text `007` lies in the lexical space of a nonnegative
integer), yet the chain returns the canonicalized bytes, which differ from
the input bytes. -/
theorem c1_roundtrip_counterexample :
    validBestandDoc doc007 = true ∧
    serializationChain false false doc007 = .ok (renderDoc sampleBestandTree) ∧
    renderDoc sampleBestandTree ≠ renderDoc doc007 :=
  ⟨by decide, by rfl, by decide⟩


/-- Claim C2: for every parser table and record constructor, after the
accumulation pass of `elem_to_mdto` succeeds, the constructor is called on
the collapsed accumulators, and a field that accumulated zero values is
passed `absent`, one that accumulated exactly one value is passed the bare
value, and one that accumulated more than one is passed the list of values
in document order. -/
theorem c2_collapse_cardinality {β τ : Type}
    (P : List (String × (Elem → Except PyErr β)))
    (mk : List (String × Collapsed β) → Except PyErr τ)
    (children : List Elem) (st : List (String × List β))
    (hacc : accumFrom P children (initArgs P) = .ok st)
    (f : String) (p : Elem → Except PyErr β) (hf : tblLookup f P = some p) :
    elem_to_mdto P mk children = mk (collapseArgs st) ∧
    ∃ vs, (children.filter (fun c => c.tag = f)).mapM (parseChild P) = .ok vs ∧
      (vs = [] → tblLookup f (collapseArgs st) = some .absent) ∧
      (∀ v, vs = [v] → tblLookup f (collapseArgs st) = some (.single v)) ∧
      (∀ v w t2, vs = v :: w :: t2 →
        tblLookup f (collapseArgs st) = some (.multiple vs)) := by
  have hinit : tblLookup f (initArgs P) = some [] := by
    rw [tblLookup_initArgs, hf]
    rfl
  obtain ⟨vs, hvs, hlook⟩ := accumFrom_lookup P children (initArgs P) st hacc f [] hinit
  have hc : tblLookup f (collapseArgs st) = some (collapse vs) := by
    rw [tblLookup_collapseArgs, hlook]
    simp
  refine ⟨by rw [elem_to_mdto, hacc]; rfl, vs, hvs, ?_, ?_, ?_⟩
  · intro he
    rw [hc, he]
    rfl
  · intro v he
    rw [hc, he]
    rfl
  · intro v w t2 he
    rw [hc, he, collapse_two]

/-- The accumulator state after reading one `<naam>` child of a
`<bestand>`. -/
def c2St : List (String × List PVal) :=
  [("naam", [.vText (some "x")]), ("identificatie", []), ("omvang", []),
   ("checksum", []), ("bestandsformaat", []), ("URLBestand", []),
   ("isRepresentatieVan", [])]

/-- Witness for C2: one `<naam>` child collapses to the bare value. -/
theorem c2_collapse_cardinality_witness :
    elem_to_mdto bestandTable (mkBestandArgs false false) [leaf "naam" (some "x")]
      = mkBestandArgs false false (collapseArgs c2St) ∧
    tblLookup "naam" (collapseArgs c2St) = some (.single (.vText (some "x"))) := by
  obtain ⟨h1, vs, hvs, hz, ho, hm⟩ := c2_collapse_cardinality bestandTable
    (mkBestandArgs false false) [leaf "naam" (some "x")] c2St (by rfl) "naam"
    parse_text (by rfl)
  have hconc : (([leaf "naam" (some "x")].filter (fun c => c.tag = "naam")).mapM
      (parseChild bestandTable)) = .ok [PVal.vText (some "x")] := rfl
  rw [hconc, Except.ok.injEq] at hvs
  exact ⟨h1, ho _ hvs.symm⟩


/-- Claim C3, amended: a repeatable field holding a bare value and the same
field holding that value in a one-element list serialize to identical XML
for the unconditionally normalized fields (`identificatie` and
`beperkingGebruik` of an `Informatieobject`, `identificatie` of a
`Bestand`) and for the guarded repeatable object fields (`event`,
`bevatOnderdeel`, `aanvullendeMetagegevens`, `betrokkene`); for the
repeatable text field `trefwoord` it holds exactly when the bare value is
truthy.  It does not hold verbatim for every repeatable field: a falsy bare
`trefwoord` serializes differently from its one-element list, and a list
`archiefvormer` crashes where the bare value serializes. -/
theorem c3_scalar_list_amended (io : Informatieobject) (b : Bestand) :
    (∀ v, (({io with identificatie := .one v}).to_xml).map Prod.fst
        = (({io with identificatie := .list [v]}).to_xml).map Prod.fst) ∧
    (∀ v, (({io with beperkingGebruik := .one v}).to_xml).map Prod.fst
        = (({io with beperkingGebruik := .list [v]}).to_xml).map Prod.fst) ∧
    (∀ v, (({io with event := some (.one v)}).to_xml).map Prod.fst
        = (({io with event := some (.list [v])}).to_xml).map Prod.fst) ∧
    (∀ v, (({io with bevatOnderdeel := some (.one v)}).to_xml).map Prod.fst
        = (({io with bevatOnderdeel := some (.list [v])}).to_xml).map Prod.fst) ∧
    (∀ v, (({io with aanvullendeMetagegevens := some (.one v)}).to_xml).map Prod.fst
        = (({io with aanvullendeMetagegevens := some (.list [v])}).to_xml).map Prod.fst) ∧
    (∀ v, (({io with betrokkene := some (.one v)}).to_xml).map Prod.fst
        = (({io with betrokkene := some (.list [v])}).to_xml).map Prod.fst) ∧
    (∀ t, pyTruthyStr t = true →
      (({io with trefwoord := some (.one t)}).to_xml).map Prod.fst
        = (({io with trefwoord := some (.list [t])}).to_xml).map Prod.fst) ∧
    (∀ v, (({b with identificatie := .one v}).to_xml).map Prod.fst
        = (({b with identificatie := .list [v]}).to_xml).map Prod.fst) := by
  refine ⟨fun v => rfl, fun v => rfl, fun v => rfl, fun v => rfl, fun v => rfl,
    fun v => rfl, ?_, fun v => rfl⟩
  obtain ⟨naam, ident, arch, bep, waard, aggr, klass, tw, omsch, raad, dek,
    ruimte, taal, ev, bew, infc, bevat, isOnd, heeftR, aanv, ger, betr, act⟩ := io
  intro t ht
  rw [Informatieobject.to_xml_fst_io, Informatieobject.to_xml_fst_io]
  rw [Informatieobject.kids.eq_def, Informatieobject.kids.eq_def]
  simp only []
  cases ger with
  | some g => rfl
  | none =>
    cases arch with
    | list l => rfl
    | one av =>
      simp [OneOrList.toList, trefwoordElems, pyTruthyStrs, ht]

/-- Witness for C3: the bare-vs-list equalities at concrete records,
including a truthy `trefwoord`. -/
theorem c3_scalar_list_witness :
    ({sampleInfObj with identificatie := .one sampleIdent}).to_xml.map Prod.fst
      = ({sampleInfObj with identificatie := .list [sampleIdent]}).to_xml.map Prod.fst ∧
    ({sampleInfObj with trefwoord := some (.one (some "x"))}).to_xml.map Prod.fst
      = ({sampleInfObj with trefwoord := some (.list [some "x"])}).to_xml.map Prod.fst :=
  ⟨(c3_scalar_list_amended sampleInfObj sampleBestand).1 sampleIdent,
   (c3_scalar_list_amended sampleInfObj sampleBestand).2.2.2.2.2.2.1 (some "x") (by decide)⟩

set_option maxRecDepth 2000000 in
/-- Counterexample to C3 as stated: an empty-string `trefwoord` is falsy,
so the bare value emits no `<trefwoord>` element while the one-element list
emits one, and a list-valued `archiefvormer` raises `AttributeError` where
the bare value serializes fine. -/
theorem c3_counterexample :
    ({sampleInfObj with trefwoord := some (.one (some ""))}).to_xml.map
        (fun r : Elem × Informatieobject => renderDoc r.1)
      ≠ ({sampleInfObj with trefwoord := some (.list [some ""])}).to_xml.map
        (fun r : Elem × Informatieobject => renderDoc r.1) ∧
    ({sampleInfObj with archiefvormer := .list [sampleVerw]}).to_xml
      = .error .attributeErrorCall := by
  exact ⟨by decide, by rfl⟩


def sampleGerelateerd : GerelateerdInformatieobjectGegevens :=
  { gerelateerdInformatieobjectVerwijzing := sampleVerw,
    gerelateerdInformatieobjectTypeRelatie := sampleBegrip }

/-- The children `Informatieobject.to_xml` emits for `sampleInfObj`. -/
def sampleInfObjKids : List Elem :=
  [sampleIdent.to_xml "identificatie", leaf "naam" (some "Dossier 1"),
   sampleBegrip.to_xml "waardering", sampleVerw.to_xml "archiefvormer",
   sampleBeperking.to_xml]

/-- Claim C4: whenever serialization emits children at all, they follow the
fixed declared order of the record type, with absent (or falsy) optional
fields contributing nothing — but the claim does not hold for every
combination of present optional fields, because a present
`gerelateerdInformatieobject` makes `to_xml` raise `TypeError` (the method
is called with a root-tag argument it does not accept) before any element
is emitted. -/
theorem c4_field_order (io : Informatieobject) (b : Bestand)
    (ks ks2 : List Elem) (hks : io.kids = .ok ks) (hks2 : b.kids = .ok ks2) :
    ks.map Elem.tag =
      (ioTagOrder.map (fun t => List.replicate (ioEmitCount io t) t)).join ∧
    ks2.map Elem.tag =
      (bestandTagOrder.map (fun t => List.replicate (bestandEmitCount b t) t)).join ∧
    (∀ (io3 : Informatieobject) (g : GerelateerdInformatieobjectGegevens),
      io3.gerelateerdInformatieobject = some g →
      io3.to_xml = .error .typeErrorCall) := by
  refine ⟨informatieobject_tag_order io ks hks, bestand_tag_order b ks2 hks2, ?_⟩
  intro io3 g hg
  rw [Informatieobject.to_xml]
  have hk : io3.kids = .error .typeErrorCall := by
    rw [Informatieobject.kids.eq_def, hg]
  rw [hk]
  rfl

/-- Witness for C4: the concrete tag sequences of a minimal
`Informatieobject` and of `sampleBestand`, and the `TypeError` at a record
with `gerelateerdInformatieobject` present. -/
theorem c4_field_order_witness :
    sampleInfObjKids.map Elem.tag =
      ["identificatie", "naam", "waardering", "archiefvormer", "beperkingGebruik"] ∧
    sampleBestandKids.map Elem.tag =
      ["identificatie", "naam", "omvang", "bestandsformaat", "checksum",
       "isRepresentatieVan"] ∧
    ({sampleInfObj with gerelateerdInformatieobject := some sampleGerelateerd}).to_xml
      = .error .typeErrorCall := by
  obtain ⟨h1, h2, h3⟩ := c4_field_order sampleInfObj sampleBestand sampleInfObjKids
    sampleBestandKids (by rfl) (by rfl)
  exact ⟨h1.trans (by rfl), h2.trans (by rfl), h3 _ sampleGerelateerd rfl⟩


/-- Claim C5: schema violations are rejected unconditionally in every mode:
a child element whose tag is not a key of the record type parser table
makes `elem_to_mdto` raise `KeyError` (the `SchemaViolation` class of the
spec), and a top-level wrapper child that is neither `informatieobject` nor
`bestand` makes `from_file` raise `ValueError` (also a `SchemaViolation`);
neither branch consults the force/quiet flags. -/
theorem c5_schema_violation :
    (∀ {β τ : Type} (P : List (String × (Elem → Except PyErr β)))
       (mk : List (String × Collapsed β) → Except PyErr τ) (children : List Elem),
       (∀ c ∈ children, ∀ p, tblLookup c.tag P = some p → ∃ v, p c = .ok v) →
       (∃ c ∈ children, tblLookup c.tag P = none) →
       ∃ t, tblLookup t P = none ∧
         elem_to_mdto P mk children = .error (.keyErrorUnknownTag t) ∧
         (PyErr.keyErrorUnknownTag t).isSchemaViolation = true) ∧
    (∀ (force quiet : Bool) (doc first : Elem) (rest : List Elem),
       doc.children = first :: rest → ¬(first.tag = "informatieobject") →
       ¬(first.tag = "bestand") →
       from_file force quiet doc = .error (.valueErrorTopLevel first.tag) ∧
       (PyErr.valueErrorTopLevel first.tag).isSchemaViolation = true) := by
  constructor
  · intro β τ P mk children hok hbad
    obtain ⟨t, hn, he⟩ := accumFrom_unknown P children (initArgs P) hok hbad
    refine ⟨t, hn, ?_, rfl⟩
    rw [elem_to_mdto, he]
    rfl
  · intro force quiet doc first rest hch h1 h2
    rw [from_file.eq_def, hch]
    simp only []
    rw [if_neg h1, if_neg h2]
    exact ⟨rfl, rfl⟩

/-- Witness for C5: a `<bestand>` child with an unknown tag, and a document
whose wrapper child has an unknown kind, each rejected identically across
modes. -/
theorem c5_schema_violation_witness :
    parse_bestand false false [leaf "bogus" none]
      = .error (.keyErrorUnknownTag "bogus") ∧
    from_file true true (node "MDTO" [node "foo" []])
      = .error (.valueErrorTopLevel "foo") := by
  constructor
  · obtain ⟨t, hn, he, hs⟩ := c5_schema_violation.1 bestandTable
      (mkBestandArgs false false) [leaf "bogus" none]
      (fun c hc p hp => by
        rcases List.mem_cons.mp hc with rfl | h0
        · exact Option.noConfusion hp
        · cases h0)
      ⟨leaf "bogus" none, by simp, by rfl⟩
    have hcomp : elem_to_mdto bestandTable (mkBestandArgs false false)
        [leaf "bogus" none] = .error (.keyErrorUnknownTag "bogus") := rfl
    rw [parse_bestand]
    exact he.trans (he.symm.trans hcomp)
  · exact (c5_schema_violation.2 true true (node "MDTO" [node "foo" []])
      (node "foo" []) [] rfl (by decide) (by decide)).1


/-- Claim C6: `parse_verwijzing` branches on child count: an element with
exactly one child becomes a reference without identification; one with two
children becomes a reference whose identification is read from the second
child (its first two sub-children, positionally).  No tag name is
consulted in either branch. -/
theorem c6_verwijzing_shape (e : Elem) :
    (∀ c, e.children = [c] → parse_verwijzing e = .ok ⟨c.text, none⟩) ∧
    (∀ c0 c1 k b rest, e.children = [c0, c1] → c1.children = k :: b :: rest →
      parse_verwijzing e = .ok ⟨c0.text, some ⟨k.text, b.text⟩⟩) := by
  constructor
  · intro c hc
    rw [parse_verwijzing.eq_def, hc]
  · intro c0 c1 k b rest hc hc1
    rw [parse_verwijzing.eq_def, hc]
    simp only []
    rw [parse_identificatie.eq_def, hc1]
    rfl

/-- Witness for C6: both branches at concrete elements whose child tags are
deliberately not the schema tags. -/
theorem c6_verwijzing_shape_witness :
    parse_verwijzing (node "v" [leaf "a" (some "n")]) = .ok ⟨some "n", none⟩ ∧
    parse_verwijzing (node "v" [leaf "a" (some "n"),
        node "b" [leaf "p" (some "K"), leaf "q" (some "B")]])
      = .ok ⟨some "n", some ⟨some "K", some "B"⟩⟩ :=
  ⟨(c6_verwijzing_shape _).1 (leaf "a" (some "n")) rfl,
   (c6_verwijzing_shape _).2 (leaf "a" (some "n"))
     (node "b" [leaf "p" (some "K"), leaf "q" (some "B")])
     (leaf "p" (some "K")) (leaf "q" (some "B")) [] rfl rfl⟩

/-- Claim C7, corrected: the mode gate exists, but with the opposite
polarity to the claim.  The default mode (`force` off) is the strict one:
an over-long name or a malformed URL makes the constructor call
`sys.exit`, so construction does not complete.  With `force` on (not the
default), the warning path continues, the invalid value is stored, and
construction completes. -/
theorem c7_validation_policy (quiet : Bool) (s : String)
    (hs : s.length > MAX_NAAM_LENGTH) (u : String) (hu : validatorsUrl u = false)
    (ident : OneOrList IdentificatieGegevens) (omv : Int)
    (fmt : Option BegripGegevens) (chk : OneOrList ChecksumGegevens)
    (rep : Option VerwijzingGegevens) (s2 : String)
    (hs2 : s2.length ≤ MAX_NAAM_LENGTH) :
    mkBestand true quiet (some s) ident omv fmt chk rep none
      = .ok { naam := some s, identificatie := ident, omvang := omv,
              bestandsformaat := fmt, checksum := chk, isRepresentatieVan := rep,
              URLBestand := none } ∧
    mkBestand false quiet (some s) ident omv fmt chk rep none
      = .error .systemExit ∧
    mkBestand true quiet (some s2) ident omv fmt chk rep (some u)
      = .ok { naam := some s2, identificatie := ident, omvang := omv,
              bestandsformaat := fmt, checksum := chk, isRepresentatieVan := rep,
              URLBestand := some u } ∧
    mkBestand false quiet (some s2) ident omv fmt chk rep (some u)
      = .error .systemExit := by
  have hs2n : ¬(s2.length > MAX_NAAM_LENGTH) := Nat.not_lt.mpr hs2
  refine ⟨?_, ?_, ?_, ?_⟩ <;>
    simp [mkBestand, warnContinues, hs, hs2n, hu, Bind.bind, Except.bind,
      Except.instMonad]

/-- Witness for C7: both conditions at concrete values — an 81-character
name and a malformed URL — in both modes. -/
theorem c7_validation_policy_witness :
    mkBestand true false (some (String.mk (List.replicate 81 (Char.ofNat 97))))
        (.one sampleIdent) 7 (some sampleBegrip) (.one sampleChecksum)
        (some sampleVerw) none
      = .ok { naam := some (String.mk (List.replicate 81 (Char.ofNat 97))),
              identificatie := .one sampleIdent, omvang := 7,
              bestandsformaat := some sampleBegrip, checksum := .one sampleChecksum,
              isRepresentatieVan := some sampleVerw, URLBestand := none } ∧
    mkBestand false false (some (String.mk (List.replicate 81 (Char.ofNat 97))))
        (.one sampleIdent) 7 (some sampleBegrip) (.one sampleChecksum)
        (some sampleVerw) none
      = .error .systemExit ∧
    mkBestand true false (some "doc.pdf") (.one sampleIdent) 7 (some sampleBegrip)
        (.one sampleChecksum) (some sampleVerw) (some "not a url")
      = .ok { naam := some "doc.pdf", identificatie := .one sampleIdent, omvang := 7,
              bestandsformaat := some sampleBegrip, checksum := .one sampleChecksum,
              isRepresentatieVan := some sampleVerw, URLBestand := some "not a url" } ∧
    mkBestand false false (some "doc.pdf") (.one sampleIdent) 7 (some sampleBegrip)
        (.one sampleChecksum) (some sampleVerw) (some "not a url")
      = .error .systemExit := by
  obtain ⟨h1, h2, h3, h4⟩ := c7_validation_policy false
    (String.mk (List.replicate 81 (Char.ofNat 97))) (by decide) "not a url"
    (by decide) (.one sampleIdent) 7 (some sampleBegrip) (.one sampleChecksum)
    (some sampleVerw) "doc.pdf" (by decide)
  exact ⟨h1, h2, h3, h4⟩

/-- Counterexample to C7 as stated: the claim calls the default mode
permissive, but under the default (`force` off) an 81-character name makes
construction exit fatally instead of completing with the value stored. -/
theorem c7_counterexample :
    (String.mk (List.replicate 81 (Char.ofNat 97))).length > MAX_NAAM_LENGTH ∧
    mkBestand false false (some (String.mk (List.replicate 81 (Char.ofNat 97))))
        (.one sampleIdent) 7 (some sampleBegrip) (.one sampleChecksum)
        (some sampleVerw) none
      = .error .systemExit :=
  ⟨by decide, by rfl⟩

/-- Claim C8, amended: `parse_int` decodes every valid base-10 numeral to
its value, and when present text is rejected the error is the `ValueError`
the spec files under `FormatError`, fatal in every mode (the parser takes
no mode flag).  But acceptance is strictly wider than the base-10
numerals: Python `int()` also accepts surrounding whitespace, a plus sign,
and single underscores between digits. -/
theorem c8_parse_int (e : Elem) (s : String) (ht : e.text = some s) :
    (isDecimalNumeral s = true → parse_int e = .ok (decimalVal s)) ∧
    (pyInt s = none → parse_int e = .error .valueErrorBadInt ∧
      PyErr.valueErrorBadInt.isFormatError = true) := by
  constructor
  · intro h
    rw [parse_int.eq_def, ht]
    simp only []
    rw [pyInt_of_decimal s h]
  · intro h
    rw [parse_int.eq_def, ht]
    simp only []
    rw [h]
    exact ⟨rfl, rfl⟩

/-- Witness for C8: a negative numeral decodes to its value; non-numeric
text is rejected with the `ValueError`. -/
theorem c8_parse_int_witness :
    parse_int (leaf "omvang" (some "-120")) = .ok (-120) ∧
    parse_int (leaf "omvang" (some "x")) = .error .valueErrorBadInt := by
  constructor
  · exact ((c8_parse_int (leaf "omvang" (some "-120")) "-120" rfl).1 (by decide)).trans
      (by rfl)
  · exact ((c8_parse_int (leaf "omvang" (some "x")) "x" rfl).2 (by rfl)).1

/-- Counterexample to C8 as stated: `1_2` is not a valid base-10 numeral,
yet the decode succeeds (with value 12) instead of failing with a
`FormatError`. -/
theorem c8_counterexample :
    isDecimalNumeral "1_2" = false ∧
    parse_int (leaf "omvang" (some "1_2")) = .ok 12 :=
  ⟨by decide, by rfl⟩

/-- Claim C9, amended: serialization does mutate the record in place, and a
second `to_xml` on the mutated record returns the identical result; but
the wrap-into-list applies to a guarded repeatable field only when the
field is truthy, so a bare falsy value (an empty-string `trefwoord`) is
left bare, contrary to the claim's "every repeatable field holding a
single scalar". -/
theorem c9_mutation (io : Informatieobject) (t : Elem) (io2 : Informatieobject)
    (hxml : io.to_xml = .ok (t, io2)) (b : Bestand) (tb : Elem) (b2 : Bestand)
    (hxmlb : b.to_xml = .ok (tb, b2)) :
    io2 = io.normalizeSelf ∧
    io2.identificatie = .list io.identificatie.toList ∧
    io2.beperkingGebruik = .list io.beperkingGebruik.toList ∧
    io2.to_xml = .ok (t, io2) ∧
    b2.identificatie = .list b.identificatie.toList ∧
    b2.to_xml = .ok (tb, b2) := by
  rw [Informatieobject.to_xml] at hxml
  cases hk : io.kids with
  | error e => rw [hk] at hxml; cases hxml
  | ok ks =>
    rw [hk] at hxml
    simp only [Except.bind, Bind.bind, Except.instMonad] at hxml
    rw [Except.ok.injEq, Prod.mk.injEq] at hxml
    obtain ⟨ht, hio2⟩ := hxml
    rw [Bestand.to_xml] at hxmlb
    cases hkb : b.kids with
    | error e => rw [hkb] at hxmlb; cases hxmlb
    | ok ks2 =>
      rw [hkb] at hxmlb
      simp only [Except.bind, Bind.bind, Except.instMonad] at hxmlb
      rw [Except.ok.injEq, Prod.mk.injEq] at hxmlb
      obtain ⟨htb, hb2⟩ := hxmlb
      subst hio2
      subst hb2
      subst ht
      subst htb
      refine ⟨rfl, rfl, rfl, ?_, rfl, ?_⟩
      · rw [Informatieobject.to_xml, kids_normalizeSelf, hk]
        simp only [Except.bind, Bind.bind, Except.instMonad]
        rw [normalizeSelf_idem]
      · rw [Bestand.to_xml]
        rw [show ({b with identificatie := .list b.identificatie.toList} :
            Bestand).kids = b.kids from rfl, hkb]
        simp only [Except.bind, Bind.bind, Except.instMonad]
        rfl

/-- Witness for C9: the mutated records of `sampleInfObj` and `sampleBestand`
re-serialize to the identical results. -/
theorem c9_mutation_witness :
    sampleInfObj.normalizeSelf.to_xml
      = .ok (Elem.mk "MDTO" none mdtoAttrs [node "informatieobject" sampleInfObjKids],
             sampleInfObj.normalizeSelf) ∧
    sampleBestandMut.to_xml = .ok (sampleBestandTree, sampleBestandMut) := by
  obtain ⟨h1, h2, h3, h4, h5, h6⟩ := c9_mutation sampleInfObj
    (Elem.mk "MDTO" none mdtoAttrs [node "informatieobject" sampleInfObjKids])
    sampleInfObj.normalizeSelf (by rfl) sampleBestand sampleBestandTree
    sampleBestandMut (by rfl)
  exact ⟨h4, h6⟩

/-- An `Informatieobject` whose `trefwoord` is the bare empty string. -/
def sampleEmptyTrefwoord : Informatieobject :=
  { sampleInfObj with trefwoord := some (.one (some "")) }

/-- Counterexample to C9 as stated: a bare empty-string `trefwoord` is
falsy, so `to_xml` completes without replacing it with a one-element
list. -/
theorem c9_counterexample :
    sampleEmptyTrefwoord.to_xml.map
        (fun r : Elem × Informatieobject => r.2.trefwoord)
      = .ok (some (.one (some ""))) ∧
    (OneOrList.one (some "") : OneOrList (Option String)) ≠ .list [some ""] :=
  ⟨by rfl, by decide⟩

/-- Claim C10: `parse_identificatie` reads the first two children
positionally — their texts become the kenmerk and the bron fields, no tag
name is consulted — and an element with fewer than two children fails with
`IndexError`, which is not one of the `SchemaViolation` errors. -/
theorem c10_identificatie_positional (e : Elem) :
    (∀ c1 c2 rest, e.children = c1 :: c2 :: rest →
      parse_identificatie e = .ok ⟨c1.text, c2.text⟩) ∧
    (e.children.length < 2 → parse_identificatie e = .error .indexError ∧
      PyErr.indexError.isSchemaViolation = false) := by
  constructor
  · intro c1 c2 rest hc
    rw [parse_identificatie.eq_def, hc]
  · intro hlen
    rw [parse_identificatie.eq_def]
    cases hc : e.children with
    | nil => exact ⟨rfl, rfl⟩
    | cons a l =>
      cases l with
      | nil => exact ⟨rfl, rfl⟩
      | cons a2 l2 =>
        rw [hc] at hlen
        simp at hlen
        omega

/-- Witness for C10: decoding ignores the child tags, and a one-child
element fails with `IndexError`. -/
theorem c10_identificatie_witness :
    parse_identificatie (node "identificatie"
        [leaf "b" (some "K"), leaf "a" (some "B")]) = .ok ⟨some "K", some "B"⟩ ∧
    parse_identificatie (node "identificatie" [leaf "identificatieKenmerk" (some "K")])
      = .error .indexError :=
  ⟨(c10_identificatie_positional _).1 (leaf "b" (some "K")) (leaf "a" (some "B")) [] rfl,
   ((c10_identificatie_positional _).2 (by decide)).1⟩


end Mdto
